import Mathlib

/-!
Verification of the Reservation & Inventory State Engine of
`hotel_system.py` (Hotel-Management-Python).

Shallow embedding conventions:
* dates and timestamps are modelled as integer day numbers (`Int`); the
  Python code parses `DD/MM/YYYY` dates to midnight datetimes, so
  `(check_out - check_in).days` is exactly the day difference;
* currency amounts are modelled as exact rationals (`ℚ`);
* interactive `input()` calls become explicit arguments; `print` output is
  reflected in explicit result enumerations where a claim refers to it;
* Python `for ... if ...: mutate; break / return` loops over the entity
  lists become `updateFirst` (mutate the first matching element) or a
  structurally recursive function when the control flow is nested.
-/

/-- Room status strings of `hotel_system.py`:
AVAILABLE, BOOKED, OCCUPIED, MAINTENANCE. -/
inductive RoomStatus
  | AVAILABLE
  | BOOKED
  | OCCUPIED
  | MAINTENANCE
deriving DecidableEq

/-- Booking status strings: CONFIRMED, CHECKED_IN, CHECKED_OUT, CANCELLED. -/
inductive BookingStatus
  | CONFIRMED
  | CHECKED_IN
  | CHECKED_OUT
  | CANCELLED
deriving DecidableEq

/-- Payment status strings: PENDING, PAID, REFUNDED. -/
inductive PaymentStatus
  | PENDING
  | PAID
  | REFUNDED
deriving DecidableEq

/-- Mirror of class `Room` (`hotel_system.py` lines 11-22). -/
structure Room where
  room_number : String
  room_type : String
  price : ℚ
  capacity : Nat
  amenities : List String
  status : RoomStatus
  current_guest : Option String
  check_in_date : Option Int
  check_out_date : Option Int
deriving DecidableEq

/-- Mirror of class `Guest` (lines 83-96). -/
structure Guest where
  guest_id : Nat
  name : String
  phone : String
  email : String
  address : String
  id_proof : String
  id_number : String
  registration_date : Int
  total_stays : Nat
  total_spent : ℚ
  vip_status : Bool
deriving DecidableEq

/-- Mirror of class `Booking` (lines 127-143). -/
structure Booking where
  booking_id : Nat
  guest_id : Nat
  room_number : String
  check_in : Int
  check_out : Int
  adults : Nat
  children : Nat
  total_amount : ℚ
  booking_date : Int
  status : BookingStatus
  payment_status : PaymentStatus
  payment_method : Option String
  special_requests : String
deriving DecidableEq

/-- Mirror of class `Staff` (lines 181-193); the Python `attendance` dict is
modelled as an association list (it is never written to by any operation). -/
structure Staff where
  staff_id : Nat
  name : String
  position : String
  department : String
  phone : String
  email : String
  salary : ℚ
  join_date : Int
  status : String
  attendance : List (String × String)
deriving DecidableEq

/-- Mirror of class `Service` (lines 222-230). -/
structure Service where
  service_id : Nat
  name : String
  category : String
  price : ℚ
  description : String
  available : Bool
deriving DecidableEq

/-- Mirror of `Booking.calculate_nights` (lines 145-147):
`(self.check_out - self.check_in).days`. -/
def Booking.calculate_nights (b : Booking) : Int :=
  b.check_out - b.check_in

/-- Mirror of `Room.book_room` (lines 24-32): only fires from AVAILABLE. -/
def Room.book_room (r : Room) (guest_name : String) (check_in check_out : Int) : Room :=
  if r.status = .AVAILABLE then
    { r with status := .BOOKED, current_guest := some guest_name,
             check_in_date := some check_in, check_out_date := some check_out }
  else r

/-- Mirror of `Room.check_in` (lines 34-39): only fires from BOOKED. -/
def Room.check_in (r : Room) : Room :=
  if r.status = .BOOKED then { r with status := .OCCUPIED } else r

/-- Mirror of `Room.check_out` (lines 41-49): only fires from OCCUPIED;
clears the denormalized occupant fields. -/
def Room.check_out (r : Room) : Room :=
  if r.status = .OCCUPIED then
    { r with status := .AVAILABLE, current_guest := none,
             check_in_date := none, check_out_date := none }
  else r

/-- Update the first element of a list satisfying `p` by `f`; leave the list
unchanged when no element matches.  This is the state effect of the Python
pattern `for x in xs: if p(x): mutate x; break`. -/
def updateFirst (p : α → Bool) (f : α → α) : List α → List α
  | [] => []
  | x :: xs => if p x then f x :: xs else x :: updateFirst p f xs

/-- Mirror of the mutable collections and ID counters of
`HotelManagementSystem.__init__` (lines 257-266). -/
structure State where
  rooms : List Room
  guests : List Guest
  bookings : List Booking
  staff : List Staff
  services : List Service
  next_guest_id : Nat
  next_booking_id : Nat
  next_staff_id : Nat
  next_service_id : Nat
deriving DecidableEq

/-- Outcome of `new_booking`, reflecting its early-return error prints.
Both the `"No rooms available!"` early return (no room at all is AVAILABLE)
and the `"Room not available!"` return (the selected room is not AVAILABLE)
report the §7 `RoomUnavailable` condition and are represented by
`roomUnavailable`; neither mutates any state. -/
inductive BookResult
  | guestNotFound
  | roomUnavailable
  | invalidDates
  | booked (b : Booking)
deriving DecidableEq

/-- Mirror of `HotelManagementSystem.new_booking` (lines 782-912).
Interactive inputs become the arguments `guest_id`, `room_number`,
`check_in`, `check_out`, `adults`, `children`; `booking_date` stands for
`datetime.now()`.  The date-entry `while` loop only exits with
`check_out > check_in`, so invalid dates are modelled as an early return. -/
def new_booking (s : State) (guest_id : Nat) (room_number : String)
    (check_in check_out : Int) (adults children : Nat) (booking_date : Int) :
    State × BookResult :=
  match s.guests.find? (fun g => decide (g.guest_id = guest_id)) with
  | none => (s, .guestNotFound)
  | some guest =>
    if (s.rooms.filter (fun r => decide (r.status = .AVAILABLE))).isEmpty then
      (s, .roomUnavailable)
    else if check_out ≤ check_in then
      (s, .invalidDates)
    else
      let nights : Int := check_out - check_in
      match s.rooms.find? (fun r =>
          decide (r.room_number = room_number ∧ r.status = .AVAILABLE)) with
      | none => (s, .roomUnavailable)
      | some selected_room =>
        let base : ℚ := selected_room.price * (nights : ℚ)
        let total_amount : ℚ :=
          if guest.vip_status then base - base * (1/10) else base
        let booking : Booking :=
          { booking_id := s.next_booking_id, guest_id := guest_id,
            room_number := room_number, check_in := check_in,
            check_out := check_out, adults := adults, children := children,
            total_amount := total_amount, booking_date := booking_date,
            status := .CONFIRMED, payment_status := .PENDING,
            payment_method := none, special_requests := "" }
        ({ s with
            rooms := (updateFirst
              (fun r => decide (r.room_number = room_number ∧ r.status = .AVAILABLE))
              (fun r => r.book_room guest.name check_in check_out) s.rooms),
            bookings := s.bookings ++ [booking],
            next_booking_id := s.next_booking_id + 1 },
         .booked booking)

/-- Result enumeration for `process_payment`: `notFoundMessage` is the
`"Booking not found!"` print (only reachable when the entered booking id is
falsy, i.e. `0`); `silentMiss` is the fall-through with a non-zero unknown
id, which prints nothing and changes nothing. -/
inductive PayResult
  | alreadyPaid
  | paid
  | notFoundMessage
  | silentMiss
deriving DecidableEq

/-- Mirror of `HotelManagementSystem.process_payment` (lines 1056-1100).
`booking_id` is the id after the interactive prompt; `method` is the chosen
payment-method string.  The trailing `if not booking_id` only fires for a
falsy (zero) id. -/
def process_payment (s : State) (booking_id : Nat) (method : String) :
    State × PayResult :=
  match s.bookings.find? (fun b => decide (b.booking_id = booking_id)) with
  | some b =>
    if b.payment_status = .PAID then (s, .alreadyPaid)
    else
      ({ s with bookings := (updateFirst (fun b => decide (b.booking_id = booking_id))
           (fun b => { b with payment_status := .PAID, payment_method := some method })
           s.bookings) },
       .paid)
  | none => if booking_id = 0 then (s, .notFoundMessage) else (s, .silentMiss)

/-- Recursion of `HotelManagementSystem.check_in` (lines 914-939): the outer
loop scans bookings for `booking_id` with status CONFIRMED; the inner loop
mutates the first room with the booking's room number and returns; if no
room matches, the outer loop continues with the remaining bookings. -/
def check_in_go (rooms : List Room) (booking_id : Nat) :
    List Booking → Option (List Room × List Booking)
  | [] => none
  | b :: bs =>
    if b.booking_id = booking_id ∧ b.status = .CONFIRMED then
      if (rooms.find? (fun r => decide (r.room_number = b.room_number))).isSome then
        some (updateFirst (fun r => decide (r.room_number = b.room_number))
                Room.check_in rooms,
              { b with status := .CHECKED_IN } :: bs)
      else
        match check_in_go rooms booking_id bs with
        | some (rs, bs2) => some (rs, b :: bs2)
        | none => none
    else
      match check_in_go rooms booking_id bs with
      | some (rs, bs2) => some (rs, b :: bs2)
      | none => none

/-- Mirror of `HotelManagementSystem.check_in`; the boolean reports whether
check-in succeeded (`false` = `"Booking not found or already checked-in!"`). -/
def check_in (s : State) (booking_id : Nat) : State × Bool :=
  match check_in_go s.rooms booking_id s.bookings with
  | some (rs, bs) => ({ s with rooms := rs, bookings := bs }, true)
  | none => (s, false)

/-- Guest mutation performed inside `check_out` (lines 958-968):
`total_stays += 1`, `total_spent += booking.total_amount`, then the auto-VIP
promotion `if guest.total_spent > 50000 and not guest.vip_status`. -/
def guest_checkout_update (amount : ℚ) (g : Guest) : Guest :=
  let g1 := { g with total_stays := g.total_stays + 1,
                     total_spent := g.total_spent + amount }
  if g1.total_spent > 50000 ∧ ¬ g1.vip_status then
    { g1 with vip_status := true }
  else g1

/-- Recursion of `HotelManagementSystem.check_out` (lines 941-982), same
nesting as `check_in_go`; additionally updates the first guest whose id is
the booking's guest id.  Returns the updated booking for the subsequent
payment-pending check. -/
def check_out_go (rooms : List Room) (guests : List Guest) (booking_id : Nat) :
    List Booking → Option (List Room × List Guest × List Booking × Booking)
  | [] => none
  | b :: bs =>
    if b.booking_id = booking_id ∧ b.status = .CHECKED_IN then
      if (rooms.find? (fun r => decide (r.room_number = b.room_number))).isSome then
        let b2 := { b with status := .CHECKED_OUT }
        some (updateFirst (fun r => decide (r.room_number = b.room_number))
                Room.check_out rooms,
              updateFirst (fun g => decide (g.guest_id = b.guest_id))
                (guest_checkout_update b.total_amount) guests,
              b2 :: bs, b2)
      else
        match check_out_go rooms guests booking_id bs with
        | some (rs, gs, bs2, b2) => some (rs, gs, b :: bs2, b2)
        | none => none
    else
      match check_out_go rooms guests booking_id bs with
      | some (rs, gs, bs2, b2) => some (rs, gs, b :: bs2, b2)
      | none => none

/-- Mirror of `HotelManagementSystem.check_out`; when the booking's payment
status is not PAID the code warns and calls `process_payment(booking_id)`,
whose interactive method choice is the `method` argument.  The boolean
reports success. -/
def check_out (s : State) (booking_id : Nat) (method : String) : State × Bool :=
  match check_out_go s.rooms s.guests booking_id s.bookings with
  | some (rs, gs, bs, b2) =>
    let s2 := { s with rooms := rs, guests := gs, bookings := bs }
    if b2.payment_status ≠ .PAID then ((process_payment s2 booking_id method).1, true)
    else (s2, true)
  | none => (s, false)

/-- Recursion of `HotelManagementSystem.cancel_booking` (lines 1024-1054):
first booking with the given id and status CONFIRMED or CHECKED_IN; the
room loop (`break`, not `return`) clears the first room with the booking's
room number unconditionally; the booking is then set CANCELLED/REFUNDED.
`Room.cancel_clear` is the inline room mutation of lines 1037-1040: status
forced to AVAILABLE and occupant fields cleared, with no status guard. -/
def Room.cancel_clear (r : Room) : Room :=
  { r with status := .AVAILABLE, current_guest := none,
           check_in_date := none, check_out_date := none }

def cancel_go (rooms : List Room) (booking_id : Nat) :
    List Booking → Option (List Room × List Booking)
  | [] => none
  | b :: bs =>
    if b.booking_id = booking_id ∧ (b.status = .CONFIRMED ∨ b.status = .CHECKED_IN) then
      some (updateFirst (fun r => decide (r.room_number = b.room_number))
              Room.cancel_clear rooms,
            { b with status := .CANCELLED, payment_status := .REFUNDED } :: bs)
    else
      match cancel_go rooms booking_id bs with
      | some (rs, bs2) => some (rs, b :: bs2)
      | none => none

/-- Mirror of `HotelManagementSystem.cancel_booking`; the boolean reports
success (`false` = `"Booking not found or cannot be cancelled!"`). -/
def cancel_booking (s : State) (booking_id : Nat) : State × Bool :=
  match cancel_go s.rooms booking_id s.bookings with
  | some (rs, bs) => ({ s with rooms := rs, bookings := bs }, true)
  | none => (s, false)

/-- Status toggle of `HotelManagementSystem.room_maintenance`
(lines 575-596): AVAILABLE ↔ MAINTENANCE, every other status untouched
(`"Cannot change status!"`). -/
def Room.maintenance_toggle (r : Room) : Room :=
  if r.status = .AVAILABLE then { r with status := .MAINTENANCE }
  else if r.status = .MAINTENANCE then { r with status := .AVAILABLE }
  else r

/-- Mirror of `HotelManagementSystem.room_maintenance`: toggles the first
room with the given number. -/
def room_maintenance (s : State) (room_number : String) : State :=
  { s with rooms := (updateFirst (fun r => decide (r.room_number = room_number))
      Room.maintenance_toggle s.rooms) }

/-- Mirror of `HotelManagementSystem.add_new_room` (lines 499-538): rejected
if the room number already exists, otherwise appended with status
AVAILABLE and empty occupant fields. -/
def add_new_room (s : State) (room_number room_type : String) (price : ℚ)
    (capacity : Nat) (amenities : List String) : State :=
  if s.rooms.any (fun r => decide (r.room_number = room_number)) then s
  else
    { s with rooms := s.rooms ++
        [{ room_number := room_number, room_type := room_type, price := price,
           capacity := capacity, amenities := amenities, status := .AVAILABLE,
           current_guest := none, check_in_date := none, check_out_date := none }] }

/-- Mirror of `HotelManagementSystem.register_guest` (lines 600-646):
appends a guest with the next guest id and advances the counter;
`registration_date` stands for `datetime.now()`. -/
def register_guest (s : State) (name phone email address id_proof id_number : String)
    (registration_date : Int) : State :=
  { s with
      guests := s.guests ++
        [{ guest_id := s.next_guest_id, name := name, phone := phone,
           email := email, address := address, id_proof := id_proof,
           id_number := id_number, registration_date := registration_date,
           total_stays := 0, total_spent := 0, vip_status := false }],
      next_guest_id := s.next_guest_id + 1 }

/-- Outcome of `restaurant_services`: `ordered` is the
`"Order placed successfully!"` branch (taken whenever guest and service
exist, even when no active booking receives the charge); `notFound` is
`"Guest or Service not found!"`. -/
inductive OrderResult
  | ordered
  | notFound
deriving DecidableEq

/-- Mirror of `HotelManagementSystem.restaurant_services` (lines 1222-1270):
when guest and service exist, the service price is added to the
`total_amount` of the first booking of that guest with status CHECKED_IN or
CONFIRMED; when the guest has no such booking the loop matches nothing and
the charge is silently dropped. -/
def restaurant_services (s : State) (guest_id service_id : Nat) :
    State × OrderResult :=
  match s.guests.find? (fun g => decide (g.guest_id = guest_id)),
        s.services.find? (fun sv => decide (sv.service_id = service_id)) with
  | some _, some sv =>
    ({ s with bookings := (updateFirst
        (fun b => decide (b.guest_id = guest_id ∧
          (b.status = .CHECKED_IN ∨ b.status = .CONFIRMED)))
        (fun b => { b with total_amount := b.total_amount + sv.price })
        s.bookings) },
     .ordered)
  | _, _ => (s, .notFound)

/-- One seed room of `initialize_data` (lines 270-296). -/
def seedRoom (n ty : String) (p : ℚ) (c : Nat) (am : List String) : Room :=
  { room_number := n, room_type := ty, price := p, capacity := c,
    amenities := am, status := .AVAILABLE, current_guest := none,
    check_in_date := none, check_out_date := none }

/-- Seed room inventory of `initialize_data` (`room_configs`). -/
def seedRooms : List Room :=
  [ seedRoom "101" "Standard" 2500 2 ["TV", "AC", "WiFi", "Attached Bathroom"],
    seedRoom "102" "Standard" 2500 2 ["TV", "AC", "WiFi", "Attached Bathroom"],
    seedRoom "103" "Standard" 2800 3 ["TV", "AC", "WiFi", "Attached Bathroom", "Mini Fridge"],
    seedRoom "104" "Standard" 2800 3 ["TV", "AC", "WiFi", "Attached Bathroom", "Mini Fridge"],
    seedRoom "201" "Deluxe" 4500 2 ["TV", "AC", "WiFi", "Mini Bar", "Coffee Maker", "Bathtub"],
    seedRoom "202" "Deluxe" 4500 2 ["TV", "AC", "WiFi", "Mini Bar", "Coffee Maker", "Bathtub"],
    seedRoom "203" "Deluxe" 5000 4 ["TV", "AC", "WiFi", "Mini Bar", "Coffee Maker", "Bathtub", "Sofa"],
    seedRoom "301" "Suite" 8000 2 ["TV", "AC", "WiFi", "Mini Bar", "Coffee Maker", "Bathtub", "Living Area", "Kitchen"],
    seedRoom "302" "Suite" 8500 4 ["TV", "AC", "WiFi", "Mini Bar", "Coffee Maker", "Bathtub", "Living Area", "Kitchen", "Dining Area"],
    seedRoom "401" "Presidential" 15000 4 ["TV", "AC", "WiFi", "Mini Bar", "Coffee Maker", "Jacuzzi", "Living Area", "Dining Area", "Kitchen", "Study Room", "Balcony"] ]

/-- One seed service of `initialize_data` (lines 298-314). -/
def seedService (i : Nat) (n cat : String) (p : ℚ) (d : String) : Service :=
  { service_id := i, name := n, category := cat, price := p,
    description := d, available := true }

/-- Seed service catalog of `initialize_data` (`service_configs`). -/
def seedServices : List Service :=
  [ seedService 3001 "Breakfast Buffet" "Restaurant" 500 "Complimentary breakfast buffet",
    seedService 3002 "Lunch Buffet" "Restaurant" 800 "Multi-cuisine lunch buffet",
    seedService 3003 "Dinner Buffet" "Restaurant" 1200 "Premium dinner buffet",
    seedService 3004 "Spa Massage" "Spa" 2000 "Traditional massage therapy",
    seedService 3005 "Laundry Service" "Housekeeping" 300 "Wash and fold per item",
    seedService 3006 "Airport Pickup" "Transport" 1500 "Luxury car airport transfer",
    seedService 3007 "Gym Access" "Fitness" 500 "Fully equipped gymnasium",
    seedService 3008 "Swimming Pool" "Recreation" 400 "Indoor heated pool" ]

/-- One seed staff member of `initialize_data` (lines 316-329); `join_date`
stands for `datetime.now()` at first startup and is fixed to day 0 here. -/
def seedStaffMember (i : Nat) (n pos dep ph em : String) (sal : ℚ) : Staff :=
  { staff_id := i, name := n, position := pos, department := dep,
    phone := ph, email := em, salary := sal, join_date := 0,
    status := "ACTIVE", attendance := [] }

/-- Seed staff roster of `initialize_data` (`staff_configs`). -/
def seedStaff : List Staff :=
  [ seedStaffMember 2001 "Rajesh Kumar" "Manager" "Administration" "9876543210" "rajesh@hotel.com" 60000,
    seedStaffMember 2002 "Priya Singh" "Receptionist" "Front Office" "9876543211" "priya@hotel.com" 25000,
    seedStaffMember 2003 "Amit Shah" "Chef" "Kitchen" "9876543212" "amit@hotel.com" 40000,
    seedStaffMember 2004 "Neha Gupta" "Housekeeping" "Housekeeping" "9876543213" "neha@hotel.com" 20000,
    seedStaffMember 2005 "Vikram Mehta" "Security" "Security" "9876543214" "vikram@hotel.com" 18000 ]

/-- State after `HotelManagementSystem.__init__` with no snapshot present:
`initialize_data` fills the seed collections (and bumps the staff/service
counters), and `load_data` hits `FileNotFoundError` and leaves everything
in place. -/
def initialState : State :=
  { rooms := seedRooms, guests := [], bookings := [], staff := seedStaff,
    services := seedServices, next_guest_id := 1001, next_booking_id := 5001,
    next_staff_id := 2006, next_service_id := 3009 }

/-- Serialized form of a datetime-valued JSON entry: `null` covers the
falsy values (`None`, empty string), `invalid` a truthy string that
`datetime.fromisoformat` rejects, and `iso d` a valid lossless ISO encoding
of day `d`. -/
inductive RawDate
  | null
  | invalid
  | iso (d : Int)
deriving DecidableEq

/-- Mirror of `Room.to_dict` output (lines 51-63); entity dicts are
modelled as key-complete records, statuses stand for their string names. -/
structure RoomDoc where
  room_number : String
  room_type : String
  price : ℚ
  capacity : Nat
  amenities : List String
  status : RoomStatus
  current_guest : Option String
  check_in_date : RawDate
  check_out_date : RawDate
deriving DecidableEq

/-- Mirror of `Guest.to_dict` output (lines 98-112). -/
structure GuestDoc where
  guest_id : Nat
  name : String
  phone : String
  email : String
  address : String
  id_proof : String
  id_number : String
  registration_date : RawDate
  total_stays : Nat
  total_spent : ℚ
  vip_status : Bool
deriving DecidableEq

/-- Mirror of `Booking.to_dict` output (lines 149-165). -/
structure BookingDoc where
  booking_id : Nat
  guest_id : Nat
  room_number : String
  check_in : RawDate
  check_out : RawDate
  adults : Nat
  children : Nat
  total_amount : ℚ
  booking_date : RawDate
  status : BookingStatus
  payment_status : PaymentStatus
  payment_method : Option String
  special_requests : String
deriving DecidableEq

/-- Mirror of `Staff.to_dict` output (lines 195-207).  Note: the Python
`to_dict` serializes every attribute of `Staff` except `attendance`. -/
structure StaffDoc where
  staff_id : Nat
  name : String
  position : String
  department : String
  phone : String
  email : String
  salary : ℚ
  join_date : RawDate
  status : String
deriving DecidableEq

/-- Mirror of `Service.to_dict` output (lines 232-241). -/
structure ServiceDoc where
  service_id : Nat
  name : String
  category : String
  price : ℚ
  description : String
  available : Bool
deriving DecidableEq

/-- Shape of the parsed `hotel_data.json` document (lines 1470-1480). -/
structure RawDoc where
  rooms : List RoomDoc
  guests : List GuestDoc
  bookings : List BookingDoc
  staff : List StaffDoc
  services : List ServiceDoc
  next_guest_id : Nat
  next_booking_id : Nat
  next_staff_id : Nat
  next_service_id : Nat
deriving DecidableEq

/-- Serialization of an optional datetime field,
`d.isoformat() if d else None`. -/
def saveOptDate : Option Int → RawDate
  | none => .null
  | some d => .iso d

/-- Mirror of `Room.to_dict`. -/
def Room.to_dict (r : Room) : RoomDoc :=
  { room_number := r.room_number, room_type := r.room_type, price := r.price,
    capacity := r.capacity, amenities := r.amenities, status := r.status,
    current_guest := r.current_guest,
    check_in_date := saveOptDate r.check_in_date,
    check_out_date := saveOptDate r.check_out_date }

/-- Mirror of `Guest.to_dict`. -/
def Guest.to_dict (g : Guest) : GuestDoc :=
  { guest_id := g.guest_id, name := g.name, phone := g.phone,
    email := g.email, address := g.address, id_proof := g.id_proof,
    id_number := g.id_number, registration_date := .iso g.registration_date,
    total_stays := g.total_stays, total_spent := g.total_spent,
    vip_status := g.vip_status }

/-- Mirror of `Booking.to_dict`. -/
def Booking.to_dict (b : Booking) : BookingDoc :=
  { booking_id := b.booking_id, guest_id := b.guest_id,
    room_number := b.room_number, check_in := .iso b.check_in,
    check_out := .iso b.check_out, adults := b.adults,
    children := b.children, total_amount := b.total_amount,
    booking_date := .iso b.booking_date, status := b.status,
    payment_status := b.payment_status, payment_method := b.payment_method,
    special_requests := b.special_requests }

/-- Mirror of `Staff.to_dict`; `attendance` is not serialized. -/
def Staff.to_dict (st : Staff) : StaffDoc :=
  { staff_id := st.staff_id, name := st.name, position := st.position,
    department := st.department, phone := st.phone, email := st.email,
    salary := st.salary, join_date := .iso st.join_date, status := st.status }

/-- Mirror of `Service.to_dict`. -/
def Service.to_dict (sv : Service) : ServiceDoc :=
  { service_id := sv.service_id, name := sv.name, category := sv.category,
    price := sv.price, description := sv.description,
    available := sv.available }

/-- Mirror of `HotelManagementSystem.save_data` (lines 1468-1483): the full
snapshot document written to `hotel_data.json`. -/
def save_data (s : State) : RawDoc :=
  { rooms := s.rooms.map Room.to_dict, guests := s.guests.map Guest.to_dict,
    bookings := s.bookings.map Booking.to_dict,
    staff := s.staff.map Staff.to_dict,
    services := s.services.map Service.to_dict,
    next_guest_id := s.next_guest_id, next_booking_id := s.next_booking_id,
    next_staff_id := s.next_staff_id, next_service_id := s.next_service_id }

/-- Decoding of a required datetime entry, `datetime.fromisoformat(v)`:
raises (`none`) unless the value is a valid ISO string. -/
def decodeReqDate : RawDate → Option Int
  | .iso d => some d
  | _ => none

/-- Decoding of an optional datetime entry, the
`if v: field = datetime.fromisoformat(v)` pattern: falsy values are
skipped (the field stays `None`), an invalid truthy string raises. -/
def decodeOptDate : RawDate → Option (Option Int)
  | .null => some none
  | .invalid => none
  | .iso d => some (some d)

/-- Reconstruction of one room from its dict (lines 1493-1507). -/
def decodeRoom (d : RoomDoc) : Option Room := do
  let ci ← decodeOptDate d.check_in_date
  let co ← decodeOptDate d.check_out_date
  pure { room_number := d.room_number, room_type := d.room_type,
         price := d.price, capacity := d.capacity, amenities := d.amenities,
         status := d.status, current_guest := d.current_guest,
         check_in_date := ci, check_out_date := co }

/-- Reconstruction of one guest from its dict (lines 1510-1525). -/
def decodeGuest (d : GuestDoc) : Option Guest := do
  let reg ← decodeReqDate d.registration_date
  pure { guest_id := d.guest_id, name := d.name, phone := d.phone,
         email := d.email, address := d.address, id_proof := d.id_proof,
         id_number := d.id_number, registration_date := reg,
         total_stays := d.total_stays, total_spent := d.total_spent,
         vip_status := d.vip_status }

/-- Reconstruction of one booking from its dict (lines 1528-1545). -/
def decodeBooking (d : BookingDoc) : Option Booking := do
  let ci ← decodeReqDate d.check_in
  let co ← decodeReqDate d.check_out
  let bd ← decodeReqDate d.booking_date
  pure { booking_id := d.booking_id, guest_id := d.guest_id,
         room_number := d.room_number, check_in := ci, check_out := co,
         adults := d.adults, children := d.children,
         total_amount := d.total_amount, booking_date := bd,
         status := d.status, payment_status := d.payment_status,
         payment_method := d.payment_method,
         special_requests := d.special_requests }

/-- Reconstruction of one staff member from its dict (lines 1548-1561);
`attendance` is reinitialized empty by the `Staff` constructor. -/
def decodeStaff (d : StaffDoc) : Option Staff := do
  let jd ← decodeReqDate d.join_date
  pure { staff_id := d.staff_id, name := d.name, position := d.position,
         department := d.department, phone := d.phone, email := d.email,
         salary := d.salary, join_date := jd, status := d.status,
         attendance := [] }

/-- Reconstruction of one service from its dict (lines 1564-1574). -/
def decodeService (d : ServiceDoc) : Option Service :=
  some { service_id := d.service_id, name := d.name, category := d.category,
         price := d.price, description := d.description,
         available := d.available }

/-- Decoding loop for one collection: the Python `for`-append loop leaves
the successfully reconstructed prefix in place when an entity raises;
the boolean reports whether an exception occurred. -/
def decodeList (dec : α → Option β) : List α → List β × Bool
  | [] => ([], false)
  | x :: xs =>
    match dec x with
    | none => ([], true)
    | some y =>
      let r := decodeList dec xs
      (y :: r.1, r.2)

/-- Input of `load_data`: the snapshot file is absent
(`FileNotFoundError`, silently ignored), present but not valid JSON
(`json.load` raises; caught and reported), or parsed into a document. -/
inductive LoadInput
  | missing
  | unparseable
  | parsed (d : RawDoc)

/-- Mirror of `HotelManagementSystem.load_data` (lines 1485-1585).  The
collections are replaced one after the other inside a single
`try`/`except`; an exception anywhere leaves every collection assigned so
far holding snapshot data, reports the error, and returns normally.  The
boolean reports whether an error message was printed. -/
def load_data (s : State) (inp : LoadInput) : State × Bool :=
  match inp with
  | .missing => (s, false)
  | .unparseable => (s, true)
  | .parsed d =>
    let rr := decodeList decodeRoom d.rooms
    let s1 := { s with rooms := rr.1 }
    if rr.2 then (s1, true) else
    let gg := decodeList decodeGuest d.guests
    let s2 := { s1 with guests := gg.1 }
    if gg.2 then (s2, true) else
    let bb := decodeList decodeBooking d.bookings
    let s3 := { s2 with bookings := bb.1 }
    if bb.2 then (s3, true) else
    let tt := decodeList decodeStaff d.staff
    let s4 := { s3 with staff := tt.1 }
    if tt.2 then (s4, true) else
    let vv := decodeList decodeService d.services
    let s5 := { s4 with services := vv.1 }
    if vv.2 then (s5, true) else
    ({ s5 with next_guest_id := d.next_guest_id,
               next_booking_id := d.next_booking_id,
               next_staff_id := d.next_staff_id,
               next_service_id := d.next_service_id }, false)

theorem updateFirst_of_forall_not {p : α → Bool} {f : α → α} {l : List α}
    (h : ∀ x ∈ l, p x = false) : updateFirst p f l = l := by
  induction l with
  | nil => rfl
  | cons x xs ih =>
    rw [updateFirst, if_neg (by simp [h x (List.mem_cons_self x xs)]),
        ih (fun y hy => h y (List.mem_cons_of_mem x hy))]

theorem updateFirst_append_cons {p : α → Bool} (f : α → α) {l1 : List α} {x : α}
    (l2 : List α) (h1 : ∀ y ∈ l1, p y = false) (hx : p x = true) :
    updateFirst p f (l1 ++ x :: l2) = l1 ++ f x :: l2 := by
  induction l1 with
  | nil => simp [updateFirst, hx]
  | cons y ys ih =>
    rw [List.cons_append, updateFirst,
        if_neg (by simp [h1 y (List.mem_cons_self y ys)]), List.cons_append,
        ih (fun z hz => h1 z (List.mem_cons_of_mem y hz))]

theorem find?_decomp {p : α → Bool} {l : List α} {x : α} (h : l.find? p = some x) :
    ∃ l1 l2, l = l1 ++ x :: l2 ∧ p x = true ∧ ∀ y ∈ l1, p y = false := by
  induction l with
  | nil => simp [List.find?] at h
  | cons y ys ih =>
    rw [List.find?] at h
    by_cases hy : p y = true
    · rw [hy] at h
      simp only [Option.some.injEq] at h
      exact ⟨[], ys, by simp [h], h ▸ hy, by simp⟩
    · rw [Bool.not_eq_true] at hy
      rw [hy] at h
      obtain ⟨l1, l2, rfl, hx, hall⟩ := ih h
      exact ⟨y :: l1, l2, rfl, hx, by
        intro z hz
        rcases List.mem_cons.1 hz with rfl | hz2
        · exact hy
        · exact hall z hz2⟩

theorem mem_updateFirst {p : α → Bool} {f : α → α} {l : List α} {y : α}
    (h : y ∈ updateFirst p f l) : y ∈ l ∨ ∃ x ∈ l, p x = true ∧ y = f x := by
  induction l with
  | nil => simp [updateFirst] at h
  | cons x xs ih =>
    rw [updateFirst] at h
    by_cases hx : p x = true
    · rw [if_pos hx] at h
      rcases List.mem_cons.1 h with rfl | h2
      · exact Or.inr ⟨x, List.mem_cons_self x xs, hx, rfl⟩
      · exact Or.inl (List.mem_cons_of_mem x h2)
    · rw [if_neg hx] at h
      rcases List.mem_cons.1 h with rfl | h2
      · exact Or.inl (List.mem_cons_self y xs)
      · rcases ih h2 with h3 | ⟨z, hz, hpz, rfl⟩
        · exact Or.inl (List.mem_cons_of_mem x h3)
        · exact Or.inr ⟨z, List.mem_cons_of_mem x hz, hpz, rfl⟩

theorem map_updateFirst (g : α → β) {p : α → Bool} {f : α → α}
    (h : ∀ x, g (f x) = g x) (l : List α) :
    (updateFirst p f l).map g = l.map g := by
  induction l with
  | nil => rfl
  | cons x xs ih =>
    rw [updateFirst]
    by_cases hx : p x = true
    · rw [if_pos hx, List.map_cons, List.map_cons, h x]
    · rw [if_neg hx, List.map_cons, List.map_cons, ih]

theorem countP_updateFirst_invar (q : α → Bool) {p : α → Bool} {f : α → α}
    (h : ∀ x, q (f x) = q x) (l : List α) :
    (updateFirst p f l).countP q = l.countP q := by
  induction l with
  | nil => rfl
  | cons x xs ih =>
    rw [updateFirst]
    by_cases hx : p x = true
    · rw [if_pos hx, List.countP_cons, List.countP_cons, h x]
    · rw [if_neg hx, List.countP_cons, List.countP_cons, ih]

theorem nodup_no_other {l1 l2 : List Room} {r0 : Room}
    (h : ((l1 ++ r0 :: l2).map Room.room_number).Nodup) :
    ∀ r, r ∈ l1 ∨ r ∈ l2 → r.room_number ≠ r0.room_number := by
  rw [List.map_append, List.nodup_append] at h
  obtain ⟨h1, h2, hdisj⟩ := h
  rw [List.map_cons, List.nodup_cons] at h2
  intro r hr heq
  rcases hr with hr | hr
  · exact hdisj (List.mem_map_of_mem Room.room_number hr)
      (heq ▸ List.mem_cons_self _ _)
  · exact h2.1 (heq ▸ List.mem_map_of_mem Room.room_number hr)

theorem exists_key_of_map_eq {l l' : List Room}
    (h : l'.map Room.room_number = l.map Room.room_number) {n : String}
    (he : ∃ r ∈ l, r.room_number = n) : ∃ r ∈ l', r.room_number = n := by
  obtain ⟨r, hr, rfl⟩ := he
  have : r.room_number ∈ l'.map Room.room_number := by
    rw [h]; exact List.mem_map_of_mem Room.room_number hr
  obtain ⟨r', hr', hr'n⟩ := List.mem_map.1 this
  exact ⟨r', hr', hr'n⟩

/-- Number of bookings of the list with the given room number and status
CONFIRMED. -/
def confCount (bs : List Booking) (n : String) : Nat :=
  bs.countP (fun b => decide (b.room_number = n ∧ b.status = .CONFIRMED))

/-- Number of bookings of the list with the given room number and status
CHECKED_IN. -/
def ciCount (bs : List Booking) (n : String) : Nat :=
  bs.countP (fun b => decide (b.room_number = n ∧ b.status = .CHECKED_IN))

theorem confCount_nil (n : String) : confCount [] n = 0 := rfl

theorem ciCount_nil (n : String) : ciCount [] n = 0 := rfl

theorem confCount_cons (b : Booking) (bs : List Booking) (n : String) :
    confCount (b :: bs) n =
      confCount bs n + (if b.room_number = n ∧ b.status = .CONFIRMED then 1 else 0) := by
  unfold confCount
  rw [List.countP_cons]
  by_cases h : b.room_number = n ∧ b.status = .CONFIRMED <;> simp [h]

theorem ciCount_cons (b : Booking) (bs : List Booking) (n : String) :
    ciCount (b :: bs) n =
      ciCount bs n + (if b.room_number = n ∧ b.status = .CHECKED_IN then 1 else 0) := by
  unfold ciCount
  rw [List.countP_cons]
  by_cases h : b.room_number = n ∧ b.status = .CHECKED_IN <;> simp [h]

theorem confCount_append (l1 l2 : List Booking) (n : String) :
    confCount (l1 ++ l2) n = confCount l1 n + confCount l2 n :=
  List.countP_append _ _ _

theorem ciCount_append (l1 l2 : List Booking) (n : String) :
    ciCount (l1 ++ l2) n = ciCount l1 n + ciCount l2 n :=
  List.countP_append _ _ _

theorem confCount_pos_of_mem {b : Booking} {bs : List Booking}
    (hb : b ∈ bs) (hn : b.room_number = n) (hs : b.status = .CONFIRMED) :
    0 < confCount bs n :=
  List.countP_pos_iff.2 ⟨b, hb, by simp [hn, hs]⟩

theorem ciCount_pos_of_mem {b : Booking} {bs : List Booking}
    (hb : b ∈ bs) (hn : b.room_number = n) (hs : b.status = .CHECKED_IN) :
    0 < ciCount bs n :=
  List.countP_pos_iff.2 ⟨b, hb, by simp [hn, hs]⟩

/-- Per-room statement of the lockstep invariant: a BOOKED room has exactly
one CONFIRMED booking and no CHECKED_IN booking referencing its number, an
OCCUPIED room exactly one CHECKED_IN booking and no CONFIRMED one, and an
AVAILABLE or MAINTENANCE room no active booking at all. -/
def RoomInv (r : Room) (bs : List Booking) : Prop :=
  (r.status = .BOOKED →
    confCount bs r.room_number = 1 ∧ ciCount bs r.room_number = 0) ∧
  (r.status = .OCCUPIED →
    ciCount bs r.room_number = 1 ∧ confCount bs r.room_number = 0) ∧
  (r.status = .AVAILABLE ∨ r.status = .MAINTENANCE →
    confCount bs r.room_number = 0 ∧ ciCount bs r.room_number = 0)

instance (r : Room) (bs : List Booking) : Decidable (RoomInv r bs) := by
  unfold RoomInv; infer_instance

/-- Inductive invariant of the reachable states: room numbers are pairwise
distinct, every booking references an existing room, and every room
satisfies the per-room lockstep invariant. -/
def SysInv (s : State) : Prop :=
  (s.rooms.map Room.room_number).Nodup ∧
  (∀ b ∈ s.bookings, ∃ r ∈ s.rooms, r.room_number = b.room_number) ∧
  (∀ r ∈ s.rooms, RoomInv r s.bookings)

instance (s : State) : Decidable (SysInv s) := by
  unfold SysInv; infer_instance

theorem sysInv_initialState : SysInv initialState := by decide

theorem Room.book_room_number (r : Room) (g : String) (ci co : Int) :
    (r.book_room g ci co).room_number = r.room_number := by
  unfold Room.book_room; split <;> rfl

theorem Room.check_in_number (r : Room) :
    (r.check_in).room_number = r.room_number := by
  unfold Room.check_in; split <;> rfl

theorem Room.check_out_number (r : Room) :
    (r.check_out).room_number = r.room_number := by
  unfold Room.check_out; split <;> rfl

theorem Room.cancel_clear_number (r : Room) :
    (r.cancel_clear).room_number = r.room_number := rfl

theorem Room.maintenance_toggle_number (r : Room) :
    (r.maintenance_toggle).room_number = r.room_number := by
  unfold Room.maintenance_toggle; split <;> [rfl; split <;> rfl]

theorem check_in_go_spec {rooms : List Room} {bid : Nat} {bs : List Booking}
    {rs : List Room} {bs' : List Booking}
    (h : check_in_go rooms bid bs = some (rs, bs')) :
    ∃ B1 b B2, bs = B1 ++ b :: B2 ∧
      bs' = B1 ++ ({ b with status := .CHECKED_IN } : Booking) :: B2 ∧
      b.booking_id = bid ∧ b.status = .CONFIRMED ∧
      (rooms.find? (fun r => decide (r.room_number = b.room_number))).isSome = true ∧
      rs = updateFirst (fun r => decide (r.room_number = b.room_number))
             Room.check_in rooms := by
  induction bs generalizing rs bs' with
  | nil => simp [check_in_go] at h
  | cons b bs ih =>
    rw [check_in_go] at h
    split at h
    · rename_i hb
      split at h
      · rename_i hr
        simp only [Option.some.injEq, Prod.mk.injEq] at h
        exact ⟨[], b, bs, rfl, by simp [h.2.symm], hb.1, hb.2, hr, h.1.symm⟩
      · rename_i hr
        split at h
        · rename_i rs0 bs0 heq
          simp only [Option.some.injEq, Prod.mk.injEq] at h
          obtain ⟨B1, b0, B2, hbs, hbs', hid, hst, hfind, hupd⟩ := ih heq
          exact ⟨b :: B1, b0, B2, by rw [List.cons_append, hbs],
            by rw [← h.2, hbs', List.cons_append], hid, hst, hfind,
            by rw [← h.1, hupd]⟩
        · exact absurd h (by simp)
    · rename_i hb
      split at h
      · rename_i rs0 bs0 heq
        simp only [Option.some.injEq, Prod.mk.injEq] at h
        obtain ⟨B1, b0, B2, hbs, hbs', hid, hst, hfind, hupd⟩ := ih heq
        exact ⟨b :: B1, b0, B2, by rw [List.cons_append, hbs],
          by rw [← h.2, hbs', List.cons_append], hid, hst, hfind,
          by rw [← h.1, hupd]⟩
      · exact absurd h (by simp)

theorem check_out_go_spec {rooms : List Room} {guests : List Guest} {bid : Nat}
    {bs : List Booking} {rs : List Room} {gs : List Guest} {bs' : List Booking}
    {b2 : Booking}
    (h : check_out_go rooms guests bid bs = some (rs, gs, bs', b2)) :
    ∃ B1 b B2, bs = B1 ++ b :: B2 ∧
      b2 = { b with status := .CHECKED_OUT } ∧
      bs' = B1 ++ b2 :: B2 ∧
      b.booking_id = bid ∧ b.status = .CHECKED_IN ∧
      (rooms.find? (fun r => decide (r.room_number = b.room_number))).isSome = true ∧
      rs = updateFirst (fun r => decide (r.room_number = b.room_number))
             Room.check_out rooms ∧
      gs = updateFirst (fun g => decide (g.guest_id = b.guest_id))
             (guest_checkout_update b.total_amount) guests := by
  induction bs generalizing rs gs bs' b2 with
  | nil => simp [check_out_go] at h
  | cons b bs ih =>
    rw [check_out_go] at h
    split at h
    · rename_i hb
      split at h
      · rename_i hr
        simp only [Option.some.injEq, Prod.mk.injEq] at h
        obtain ⟨h1, h2, h3, h4⟩ := h
        exact ⟨[], b, bs, rfl, h4.symm, by rw [← h3, ← h4]; rfl, hb.1, hb.2,
          hr, h1.symm, h2.symm⟩
      · rename_i hr
        split at h
        · rename_i rs0 gs0 bs0 b0 heq
          simp only [Option.some.injEq, Prod.mk.injEq] at h
          obtain ⟨B1, bb, B2, hbs, hb2, hbs', hid, hst, hfind, hupd, hgupd⟩ := ih heq
          exact ⟨b :: B1, bb, B2, by rw [List.cons_append, hbs],
            by rw [← h.2.2.2, hb2],
            by rw [← h.2.2.1, hbs', List.cons_append, h.2.2.2], hid, hst, hfind,
            by rw [← h.1, hupd], by rw [← h.2.1, hgupd]⟩
        · exact absurd h (by simp)
    · rename_i hb
      split at h
      · rename_i rs0 gs0 bs0 b0 heq
        simp only [Option.some.injEq, Prod.mk.injEq] at h
        obtain ⟨B1, bb, B2, hbs, hb2, hbs', hid, hst, hfind, hupd, hgupd⟩ := ih heq
        exact ⟨b :: B1, bb, B2, by rw [List.cons_append, hbs],
          by rw [← h.2.2.2, hb2],
          by rw [← h.2.2.1, hbs', List.cons_append, h.2.2.2], hid, hst, hfind,
          by rw [← h.1, hupd], by rw [← h.2.1, hgupd]⟩
      · exact absurd h (by simp)

theorem cancel_go_spec {rooms : List Room} {bid : Nat} {bs : List Booking}
    {rs : List Room} {bs' : List Booking}
    (h : cancel_go rooms bid bs = some (rs, bs')) :
    ∃ B1 b B2, bs = B1 ++ b :: B2 ∧
      bs' = B1 ++
        ({ b with status := .CANCELLED, payment_status := .REFUNDED } : Booking) :: B2 ∧
      b.booking_id = bid ∧ (b.status = .CONFIRMED ∨ b.status = .CHECKED_IN) ∧
      rs = updateFirst (fun r => decide (r.room_number = b.room_number))
             Room.cancel_clear rooms := by
  induction bs generalizing rs bs' with
  | nil => simp [cancel_go] at h
  | cons b bs ih =>
    rw [cancel_go] at h
    split at h
    · rename_i hb
      simp only [Option.some.injEq, Prod.mk.injEq] at h
      exact ⟨[], b, bs, rfl, by simp [h.2.symm], hb.1, hb.2, h.1.symm⟩
    · rename_i hb
      split at h
      · rename_i rs0 bs0 heq
        simp only [Option.some.injEq, Prod.mk.injEq] at h
        obtain ⟨B1, b0, B2, hbs, hbs', hid, hst, hupd⟩ := ih heq
        exact ⟨b :: B1, b0, B2, by rw [List.cons_append, hbs],
          by rw [← h.2, hbs', List.cons_append], hid, hst,
          by rw [← h.1, hupd]⟩
      · exact absurd h (by simp)

theorem RoomInv_of_counts_eq {r : Room} {bs bs' : List Booking}
    (hc : confCount bs' r.room_number = confCount bs r.room_number)
    (hi : ciCount bs' r.room_number = ciCount bs r.room_number)
    (h : RoomInv r bs) : RoomInv r bs' := by
  unfold RoomInv at h ⊢
  rw [hc, hi]
  exact h

theorem sysInv_register_guest (s : State) (n p e a ip inum : String) (rd : Int)
    (h : SysInv s) : SysInv (register_guest s n p e a ip inum rd) := by
  exact ⟨h.1, h.2.1, h.2.2⟩

theorem sysInv_process_payment (s : State) (bid : Nat) (m : String)
    (h : SysInv s) : SysInv (process_payment s bid m).1 := by
  unfold process_payment
  split
  · split
    · exact h
    · refine ⟨h.1, ?_, ?_⟩
      · intro b2 hb2
        rcases mem_updateFirst hb2 with hmem | ⟨x, hx, -, rfl⟩
        · exact h.2.1 b2 hmem
        · exact h.2.1 x hx
      · intro r hr
        refine RoomInv_of_counts_eq ?_ ?_ (h.2.2 r hr)
        · exact @countP_updateFirst_invar Booking
            (fun b => decide (b.room_number = r.room_number ∧ b.status = BookingStatus.CONFIRMED))
            (fun b => decide (b.booking_id = bid))
            (fun b => { b with payment_status := PaymentStatus.PAID, payment_method := some m })
            (fun x => rfl) s.bookings
        · exact @countP_updateFirst_invar Booking
            (fun b => decide (b.room_number = r.room_number ∧ b.status = BookingStatus.CHECKED_IN))
            (fun b => decide (b.booking_id = bid))
            (fun b => { b with payment_status := PaymentStatus.PAID, payment_method := some m })
            (fun x => rfl) s.bookings
  · split <;> exact h

theorem RoomInv_maintenance_toggle {r : Room} {bs : List Booking}
    (h : RoomInv r bs) : RoomInv r.maintenance_toggle bs := by
  unfold Room.maintenance_toggle
  split
  · rename_i hA
    have h0 := h.2.2 (Or.inl hA)
    exact ⟨fun hb => by simp at hb, fun hb => by simp at hb, fun _ => h0⟩
  · split
    · rename_i hM
      have h0 := h.2.2 (Or.inr hM)
      exact ⟨fun hb => by simp at hb, fun hb => by simp at hb, fun _ => h0⟩
    · exact h

theorem sysInv_room_maintenance (s : State) (rn : String)
    (h : SysInv s) : SysInv (room_maintenance s rn) := by
  have hmap : ((updateFirst (fun r => decide (r.room_number = rn))
      Room.maintenance_toggle s.rooms).map Room.room_number)
      = s.rooms.map Room.room_number :=
    map_updateFirst _ (fun r => Room.maintenance_toggle_number r) _
  refine ⟨?_, ?_, ?_⟩
  · rw [show (room_maintenance s rn).rooms = updateFirst
      (fun r => decide (r.room_number = rn)) Room.maintenance_toggle s.rooms from rfl,
      hmap]
    exact h.1
  · intro b hb
    exact exists_key_of_map_eq hmap (h.2.1 b hb)
  · intro r hr
    rcases mem_updateFirst hr with hmem | ⟨x, hx, -, rfl⟩
    · exact h.2.2 r hmem
    · exact RoomInv_maintenance_toggle (h.2.2 x hx)

theorem sysInv_add_new_room (s : State) (rn ty : String) (pr : ℚ) (cap : Nat)
    (am : List String) (h : SysInv s) : SysInv (add_new_room s rn ty pr cap am) := by
  unfold add_new_room
  split
  · exact h
  · rename_i hany
    have hnone : ∀ r ∈ s.rooms, r.room_number ≠ rn := by
      intro r hr heq
      exact hany (List.any_eq_true.2 ⟨r, hr, by simp [heq]⟩)
    have hc : confCount s.bookings rn = 0 := by
      apply List.countP_eq_zero.2
      intro b hb
      simp only [decide_eq_true_eq, not_and]
      intro hbn
      obtain ⟨r, hr, hrn⟩ := h.2.1 b hb
      exact absurd (hrn.trans hbn) (hnone r hr)
    have hi : ciCount s.bookings rn = 0 := by
      apply List.countP_eq_zero.2
      intro b hb
      simp only [decide_eq_true_eq, not_and]
      intro hbn
      obtain ⟨r, hr, hrn⟩ := h.2.1 b hb
      exact absurd (hrn.trans hbn) (hnone r hr)
    refine ⟨?_, ?_, ?_⟩
    · rw [List.map_append, List.nodup_append]
      refine ⟨h.1, by simp, ?_⟩
      intro a ha hb
      simp only [List.map_cons, List.map_nil, List.mem_singleton] at hb
      obtain ⟨r, hr, hrn⟩ := List.mem_map.1 ha
      exact hnone r hr (hrn.trans hb)
    · intro b hb
      obtain ⟨r, hr, hrn⟩ := h.2.1 b hb
      exact ⟨r, List.mem_append_left _ hr, hrn⟩
    · intro r hr
      rcases List.mem_append.1 hr with hmem | hmem
      · exact h.2.2 r hmem
      · rw [List.mem_singleton.1 hmem]
        exact ⟨fun hb => by simp at hb, fun hb => by simp at hb, fun _ => ⟨hc, hi⟩⟩

theorem confCount_mid (B1 B2 : List Booking) (b : Booking) (n : String) :
    confCount (B1 ++ b :: B2) n = confCount B1 n + confCount B2 n +
      (if b.room_number = n ∧ b.status = .CONFIRMED then 1 else 0) := by
  rw [confCount_append, confCount_cons, Nat.add_assoc]

theorem ciCount_mid (B1 B2 : List Booking) (b : Booking) (n : String) :
    ciCount (B1 ++ b :: B2) n = ciCount B1 n + ciCount B2 n +
      (if b.room_number = n ∧ b.status = .CHECKED_IN then 1 else 0) := by
  rw [ciCount_append, ciCount_cons, Nat.add_assoc]

theorem roomInv_untouched {B1 B2 : List Booking} {b b' : Booking} {r' : Room}
    (hne : r'.room_number ≠ b.room_number) (hb'n : b'.room_number = b.room_number)
    (hold : RoomInv r' (B1 ++ b :: B2)) : RoomInv r' (B1 ++ b' :: B2) := by
  have hb : ¬ (b.room_number = r'.room_number) := fun he => hne he.symm
  refine RoomInv_of_counts_eq ?_ ?_ hold
  · rw [confCount_mid, confCount_mid]
    simp [hb'n, hb]
  · rw [ciCount_mid, ciCount_mid]
    simp [hb'n, hb]

theorem ref_swap {roomsAll roomsAll' : List Room}
    (hmap : roomsAll'.map Room.room_number = roomsAll.map Room.room_number)
    {B1 B2 : List Booking} {b b' : Booking}
    (hb'n : b'.room_number = b.room_number)
    (href : ∀ b2 ∈ B1 ++ b :: B2, ∃ r ∈ roomsAll, r.room_number = b2.room_number) :
    ∀ b2 ∈ B1 ++ b' :: B2, ∃ r ∈ roomsAll', r.room_number = b2.room_number := by
  intro b2 hb2
  rcases List.mem_append.1 hb2 with h1 | h2
  · exact exists_key_of_map_eq hmap (href b2 (List.mem_append_left _ h1))
  · rcases List.mem_cons.1 h2 with rfl | h3
    · obtain ⟨r, hr, hrn⟩ := exists_key_of_map_eq hmap
        (href b (List.mem_append_right _ (List.mem_cons_self _ _)))
      exact ⟨r, hr, hrn.trans hb'n.symm⟩
    · exact exists_key_of_map_eq hmap
        (href b2 (List.mem_append_right _ (List.mem_cons_of_mem _ h3)))

/-- In an invariant state, the room matching an active booking carries the
matching status, and no other active booking with the same room number
exists anywhere else in the booking list. -/
theorem active_unique {bsAll : List Booking} {B1 B2 : List Booking} {b : Booking}
    (hbs : bsAll = B1 ++ b :: B2)
    {roomsAll : List Room} {r0 : Room}
    (hr0mem : r0 ∈ roomsAll)
    (hrinv : ∀ r ∈ roomsAll, RoomInv r bsAll)
    (hp0 : r0.room_number = b.room_number)
    (hactive : b.status = .CONFIRMED ∨ b.status = .CHECKED_IN) :
    (b.status = .CONFIRMED → r0.status = .BOOKED) ∧
    (b.status = .CHECKED_IN → r0.status = .OCCUPIED) ∧
    confCount B1 b.room_number = 0 ∧ confCount B2 b.room_number = 0 ∧
    ciCount B1 b.room_number = 0 ∧ ciCount B2 b.room_number = 0 := by
  have hr0inv := hrinv r0 hr0mem
  rcases hactive with hconf | hci
  · have hpos : 0 < confCount bsAll b.room_number := by
      rw [hbs]
      exact confCount_pos_of_mem (List.mem_append_right _ (List.mem_cons_self _ _)) rfl hconf
    have hr0b : r0.status = RoomStatus.BOOKED := by
      cases hstat : r0.status with
      | BOOKED => rfl
      | AVAILABLE =>
        have h0 := (hr0inv.2.2 (Or.inl hstat)).1
        rw [hp0] at h0
        omega
      | OCCUPIED =>
        have h0 := (hr0inv.2.1 hstat).2
        rw [hp0] at h0
        omega
      | MAINTENANCE =>
        have h0 := (hr0inv.2.2 (Or.inr hstat)).1
        rw [hp0] at h0
        omega
    have hcounts := hr0inv.1 hr0b
    rw [hp0] at hcounts
    have hcm := hcounts.1
    have him := hcounts.2
    rw [hbs, confCount_mid] at hcm
    rw [hbs, ciCount_mid] at him
    simp [hconf] at hcm
    have hciite : ¬ (b.room_number = b.room_number ∧ b.status = BookingStatus.CHECKED_IN) := by
      simp [hconf]
    rw [if_neg hciite] at him
    exact ⟨fun _ => hr0b, fun hx => absurd (hconf.symm.trans hx) (by decide),
      by omega, by omega, by omega, by omega⟩
  · have hpos : 0 < ciCount bsAll b.room_number := by
      rw [hbs]
      exact ciCount_pos_of_mem (List.mem_append_right _ (List.mem_cons_self _ _)) rfl hci
    have hr0b : r0.status = RoomStatus.OCCUPIED := by
      cases hstat : r0.status with
      | OCCUPIED => rfl
      | AVAILABLE =>
        have h0 := (hr0inv.2.2 (Or.inl hstat)).2
        rw [hp0] at h0
        omega
      | BOOKED =>
        have h0 := (hr0inv.1 hstat).2
        rw [hp0] at h0
        omega
      | MAINTENANCE =>
        have h0 := (hr0inv.2.2 (Or.inr hstat)).2
        rw [hp0] at h0
        omega
    have hcounts := hr0inv.2.1 hr0b
    rw [hp0] at hcounts
    have hcm := hcounts.2
    have him := hcounts.1
    rw [hbs, confCount_mid] at hcm
    rw [hbs, ciCount_mid] at him
    simp [hci] at him
    have hconfite : ¬ (b.room_number = b.room_number ∧ b.status = BookingStatus.CONFIRMED) := by
      simp [hci]
    rw [if_neg hconfite] at hcm
    exact ⟨fun hx => absurd (hci.symm.trans hx) (by decide), fun _ => hr0b,
      by omega, by omega, by omega, by omega⟩

theorem sysInv_check_in (s : State) (bid : Nat) (h : SysInv s) :
    SysInv (check_in s bid).1 := by
  unfold check_in
  split
  · rename_i rs bs' hgo
    obtain ⟨B1, b, B2, hbs, hbs', hid, hst, hfind, hupd⟩ := check_in_go_spec hgo
    obtain ⟨r0, hr0⟩ := Option.isSome_iff_exists.1 hfind
    obtain ⟨R1, R2, hrooms, hp0, hR1⟩ := find?_decomp hr0
    rw [decide_eq_true_eq] at hp0
    have hupd2 : rs = R1 ++ r0.check_in :: R2 := by
      rw [hupd, hrooms]
      exact updateFirst_append_cons _ R2 hR1 (by simp [hp0])
    have hmap : rs.map Room.room_number = s.rooms.map Room.room_number := by
      rw [hupd]
      exact map_updateFirst _ (fun r => Room.check_in_number r) _
    have hr0mem : r0 ∈ s.rooms := by
      rw [hrooms]
      exact List.mem_append_right _ (List.mem_cons_self _ _)
    obtain ⟨hcb, -, hc1, hc2, hi1, hi2⟩ :=
      active_unique hbs hr0mem h.2.2 hp0 (Or.inl hst)
    have hr0b := hcb hst
    refine ⟨?_, ?_, ?_⟩
    · show (rs.map Room.room_number).Nodup
      rw [hmap]
      exact h.1
    · show ∀ b2 ∈ bs', ∃ r ∈ rs, r.room_number = b2.room_number
      rw [hbs']
      have href := h.2.1
      rw [hbs] at href
      exact @ref_swap s.rooms rs hmap B1 B2 b _ rfl href
    · show ∀ r' ∈ rs, RoomInv r' bs'
      rw [hupd2, hbs']
      have hnodup' := h.1
      rw [hrooms] at hnodup'
      intro r' hr'
      rcases List.mem_append.1 hr' with h1 | h2
      · have hne : r'.room_number ≠ b.room_number :=
          hp0 ▸ nodup_no_other hnodup' r' (Or.inl h1)
        have hold : RoomInv r' s.bookings :=
          h.2.2 r' (by rw [hrooms]; exact List.mem_append_left _ h1)
        rw [hbs] at hold
        exact roomInv_untouched hne rfl hold
      · rcases List.mem_cons.1 h2 with rfl | h3
        · have hst' : (r0.check_in).status = RoomStatus.OCCUPIED := by
            unfold Room.check_in
            rw [if_pos hr0b]
          have hnum : (r0.check_in).room_number = b.room_number :=
            (Room.check_in_number r0).trans hp0
          refine ⟨fun hbk => absurd (hst'.symm.trans hbk) (by decide),
            fun _ => ?_, fun hav => ?_⟩
          · constructor
            · rw [hnum, ciCount_mid]
              simp [hi1, hi2]
            · rw [hnum, confCount_mid]
              simp [hc1, hc2]
          · rcases hav with hx | hx <;> exact absurd (hst'.symm.trans hx) (by decide)
        · have hne : r'.room_number ≠ b.room_number :=
            hp0 ▸ nodup_no_other hnodup' r' (Or.inr h3)
          have hold : RoomInv r' s.bookings :=
            h.2.2 r' (by
              rw [hrooms]
              exact List.mem_append_right _ (List.mem_cons_of_mem _ h3))
          rw [hbs] at hold
          exact roomInv_untouched hne rfl hold
  · exact h

theorem sysInv_check_out (s : State) (bid : Nat) (m : String) (h : SysInv s) :
    SysInv (check_out s bid m).1 := by
  unfold check_out
  split
  · rename_i rs gs bs' b2 hgo
    obtain ⟨B1, b, B2, hbs, hb2, hbs', hid, hst, hfind, hupd, hgupd⟩ :=
      check_out_go_spec hgo
    obtain ⟨r0, hr0⟩ := Option.isSome_iff_exists.1 hfind
    obtain ⟨R1, R2, hrooms, hp0, hR1⟩ := find?_decomp hr0
    rw [decide_eq_true_eq] at hp0
    have hupd2 : rs = R1 ++ r0.check_out :: R2 := by
      rw [hupd, hrooms]
      exact updateFirst_append_cons _ R2 hR1 (by simp [hp0])
    have hmap : rs.map Room.room_number = s.rooms.map Room.room_number := by
      rw [hupd]
      exact map_updateFirst _ (fun r => Room.check_out_number r) _
    have hr0mem : r0 ∈ s.rooms := by
      rw [hrooms]
      exact List.mem_append_right _ (List.mem_cons_self _ _)
    obtain ⟨-, hco, hc1, hc2, hi1, hi2⟩ :=
      active_unique hbs hr0mem h.2.2 hp0 (Or.inr hst)
    have hr0o := hco hst
    have hs2 : SysInv { s with rooms := rs, guests := gs, bookings := bs' } := by
      refine ⟨?_, ?_, ?_⟩
      · show (rs.map Room.room_number).Nodup
        rw [hmap]
        exact h.1
      · show ∀ x ∈ bs', ∃ r ∈ rs, r.room_number = x.room_number
        rw [hbs', hb2]
        have href := h.2.1
        rw [hbs] at href
        exact @ref_swap s.rooms rs hmap B1 B2 b _ rfl href
      · show ∀ r' ∈ rs, RoomInv r' bs'
        rw [hupd2, hbs', hb2]
        have hnodup' := h.1
        rw [hrooms] at hnodup'
        intro r' hr'
        rcases List.mem_append.1 hr' with h1 | h2
        · have hne : r'.room_number ≠ b.room_number :=
            hp0 ▸ nodup_no_other hnodup' r' (Or.inl h1)
          have hold : RoomInv r' s.bookings :=
            h.2.2 r' (by rw [hrooms]; exact List.mem_append_left _ h1)
          rw [hbs] at hold
          exact roomInv_untouched hne rfl hold
        · rcases List.mem_cons.1 h2 with rfl | h3
          · have hst' : (r0.check_out).status = RoomStatus.AVAILABLE := by
              unfold Room.check_out
              rw [if_pos hr0o]
            have hnum : (r0.check_out).room_number = b.room_number :=
              (Room.check_out_number r0).trans hp0
            refine ⟨fun hbk => absurd (hst'.symm.trans hbk) (by decide),
              fun hoc => absurd (hst'.symm.trans hoc) (by decide), fun _ => ?_⟩
            constructor
            · rw [hnum, confCount_mid]
              simp [hc1, hc2]
            · rw [hnum, ciCount_mid]
              simp [hi1, hi2]
          · have hne : r'.room_number ≠ b.room_number :=
              hp0 ▸ nodup_no_other hnodup' r' (Or.inr h3)
            have hold : RoomInv r' s.bookings :=
              h.2.2 r' (by
                rw [hrooms]
                exact List.mem_append_right _ (List.mem_cons_of_mem _ h3))
            rw [hbs] at hold
            exact roomInv_untouched hne rfl hold
    split
    · exact sysInv_process_payment _ bid m hs2
    · exact hs2
  · exact h

theorem sysInv_cancel_booking (s : State) (bid : Nat) (h : SysInv s) :
    SysInv (cancel_booking s bid).1 := by
  unfold cancel_booking
  split
  · rename_i rs bs' hgo
    obtain ⟨B1, b, B2, hbs, hbs', hid, hst, hupd⟩ := cancel_go_spec hgo
    have hbmem : b ∈ s.bookings := by
      rw [hbs]
      exact List.mem_append_right _ (List.mem_cons_self _ _)
    obtain ⟨rex, hrexmem, hrexn⟩ := h.2.1 b hbmem
    have hfind : (s.rooms.find? (fun r => decide (r.room_number = b.room_number))).isSome = true :=
      List.find?_isSome.2 ⟨rex, hrexmem, by simp [hrexn]⟩
    obtain ⟨r0, hr0⟩ := Option.isSome_iff_exists.1 hfind
    obtain ⟨R1, R2, hrooms, hp0, hR1⟩ := find?_decomp hr0
    rw [decide_eq_true_eq] at hp0
    have hupd2 : rs = R1 ++ r0.cancel_clear :: R2 := by
      rw [hupd, hrooms]
      exact updateFirst_append_cons _ R2 hR1 (by simp [hp0])
    have hmap : rs.map Room.room_number = s.rooms.map Room.room_number := by
      rw [hupd]
      exact map_updateFirst _ (fun r => Room.cancel_clear_number r) _
    have hr0mem : r0 ∈ s.rooms := by
      rw [hrooms]
      exact List.mem_append_right _ (List.mem_cons_self _ _)
    obtain ⟨-, -, hc1, hc2, hi1, hi2⟩ :=
      active_unique hbs hr0mem h.2.2 hp0 hst
    refine ⟨?_, ?_, ?_⟩
    · show (rs.map Room.room_number).Nodup
      rw [hmap]
      exact h.1
    · show ∀ x ∈ bs', ∃ r ∈ rs, r.room_number = x.room_number
      rw [hbs']
      have href := h.2.1
      rw [hbs] at href
      exact @ref_swap s.rooms rs hmap B1 B2 b _ rfl href
    · show ∀ r' ∈ rs, RoomInv r' bs'
      rw [hupd2, hbs']
      have hnodup' := h.1
      rw [hrooms] at hnodup'
      intro r' hr'
      rcases List.mem_append.1 hr' with h1 | h2
      · have hne : r'.room_number ≠ b.room_number :=
          hp0 ▸ nodup_no_other hnodup' r' (Or.inl h1)
        have hold : RoomInv r' s.bookings :=
          h.2.2 r' (by rw [hrooms]; exact List.mem_append_left _ h1)
        rw [hbs] at hold
        exact roomInv_untouched hne rfl hold
      · rcases List.mem_cons.1 h2 with rfl | h3
        · have hst' : (r0.cancel_clear).status = RoomStatus.AVAILABLE := rfl
          have hnum : (r0.cancel_clear).room_number = b.room_number :=
            (Room.cancel_clear_number r0).trans hp0
          refine ⟨fun hbk => absurd (hst'.symm.trans hbk) (by decide),
            fun hoc => absurd (hst'.symm.trans hoc) (by decide), fun _ => ?_⟩
          constructor
          · rw [hnum, confCount_mid]
            simp [hc1, hc2]
          · rw [hnum, ciCount_mid]
            simp [hi1, hi2]
        · have hne : r'.room_number ≠ b.room_number :=
            hp0 ▸ nodup_no_other hnodup' r' (Or.inr h3)
          have hold : RoomInv r' s.bookings :=
            h.2.2 r' (by
              rw [hrooms]
              exact List.mem_append_right _ (List.mem_cons_of_mem _ h3))
          rw [hbs] at hold
          exact roomInv_untouched hne rfl hold
  · exact h

theorem sysInv_after_book {s : State} (h : SysInv s) {rn gname : String}
    {R1 R2 : List Room} {selected : Room} {nb : Booking} {ci co : Int}
    (hrooms : s.rooms = R1 ++ selected :: R2)
    (hR1 : ∀ y ∈ R1,
      (fun r => decide (r.room_number = rn ∧ r.status = RoomStatus.AVAILABLE)) y = false)
    (hseln : selected.room_number = rn)
    (hselA : selected.status = RoomStatus.AVAILABLE)
    (hnbn : nb.room_number = rn) (hnbs : nb.status = BookingStatus.CONFIRMED)
    {X : State}
    (hX : X.rooms = updateFirst
      (fun r => decide (r.room_number = rn ∧ r.status = RoomStatus.AVAILABLE))
      (fun r => r.book_room gname ci co) s.rooms)
    (hXb : X.bookings = s.bookings ++ [nb]) :
    SysInv X := by
  have hupd2 : updateFirst
      (fun r => decide (r.room_number = rn ∧ r.status = RoomStatus.AVAILABLE))
      (fun r => r.book_room gname ci co) s.rooms
      = R1 ++ (selected.book_room gname ci co) :: R2 := by
    rw [hrooms]
    exact updateFirst_append_cons _ R2 hR1 (by simp [hseln, hselA])
  have hmap : (updateFirst
      (fun r => decide (r.room_number = rn ∧ r.status = RoomStatus.AVAILABLE))
      (fun r => r.book_room gname ci co) s.rooms).map Room.room_number
      = s.rooms.map Room.room_number :=
    map_updateFirst _ (fun r => Room.book_room_number r gname ci co) _
  have hselmem : selected ∈ s.rooms := by
    rw [hrooms]
    exact List.mem_append_right _ (List.mem_cons_self _ _)
  have h0 := (h.2.2 selected hselmem).2.2 (Or.inl hselA)
  rw [hseln] at h0
  have hconfA : ∀ m, confCount (s.bookings ++ [nb]) m
      = confCount s.bookings m + (if rn = m then 1 else 0) := by
    intro m
    simp [confCount_append, confCount_cons, confCount_nil, hnbn, hnbs]
  have hciA : ∀ m, ciCount (s.bookings ++ [nb]) m = ciCount s.bookings m := by
    intro m
    simp [ciCount_append, ciCount_cons, ciCount_nil, hnbs]
  refine ⟨?_, ?_, ?_⟩
  · rw [hX, hmap]
    exact h.1
  · rw [hX, hXb]
    intro b2 hb2
    rcases List.mem_append.1 hb2 with h1 | h2
    · exact exists_key_of_map_eq hmap (h.2.1 b2 h1)
    · obtain ⟨r, hr, hrn2⟩ := exists_key_of_map_eq hmap ⟨selected, hselmem, hseln⟩
      rw [List.mem_singleton.1 h2]
      exact ⟨r, hr, hrn2.trans hnbn.symm⟩
  · rw [hX, hXb, hupd2]
    have hnodup' := h.1
    rw [hrooms] at hnodup'
    intro r' hr'
    rcases List.mem_append.1 hr' with h1 | h2
    · have hne : r'.room_number ≠ rn :=
        hseln ▸ nodup_no_other hnodup' r' (Or.inl h1)
      have hold : RoomInv r' s.bookings :=
        h.2.2 r' (by rw [hrooms]; exact List.mem_append_left _ h1)
      refine RoomInv_of_counts_eq ?_ (hciA _) hold
      rw [hconfA]
      simp [Ne.symm hne]
    · rcases List.mem_cons.1 h2 with rfl | h3
      · have hst' : (selected.book_room gname ci co).status = RoomStatus.BOOKED := by
          unfold Room.book_room
          rw [if_pos hselA]
        have hnum : (selected.book_room gname ci co).room_number = rn :=
          (Room.book_room_number selected gname ci co).trans hseln
        refine ⟨fun _ => ?_, fun hoc => absurd (hst'.symm.trans hoc) (by decide),
          fun hav => ?_⟩
        · constructor
          · rw [hnum, hconfA, h0.1]
            simp
          · rw [hnum, hciA, h0.2]
        · rcases hav with hx | hx <;> exact absurd (hst'.symm.trans hx) (by decide)
      · have hne : r'.room_number ≠ rn :=
          hseln ▸ nodup_no_other hnodup' r' (Or.inr h3)
        have hold : RoomInv r' s.bookings :=
          h.2.2 r' (by
            rw [hrooms]
            exact List.mem_append_right _ (List.mem_cons_of_mem _ h3))
        refine RoomInv_of_counts_eq ?_ (hciA _) hold
        rw [hconfA]
        simp [Ne.symm hne]

theorem sysInv_new_booking (s : State) (gid : Nat) (rn : String) (ci co : Int)
    (a c : Nat) (bd : Int) (h : SysInv s) :
    SysInv (new_booking s gid rn ci co a c bd).1 := by
  unfold new_booking
  split
  · exact h
  · rename_i guest hguest
    split
    · exact h
    · split
      · exact h
      · split
        · exact h
        · rename_i selected hfind
          obtain ⟨R1, R2, hrooms, hpsel, hR1⟩ := find?_decomp hfind
          rw [decide_eq_true_eq] at hpsel
          exact sysInv_after_book h hrooms hR1 hpsel.1 hpsel.2 rfl rfl rfl rfl

/-- One core operation of the Reservation & Inventory State Engine
(create_booking, check_in, check_out, cancel_booking, settle_payment,
maintenance toggle, add room, register guest), with arbitrary operator
inputs. -/
inductive Step : State → State → Prop
  | new_booking (s : State) (gid : Nat) (rn : String) (ci co : Int)
      (a c : Nat) (bd : Int) : Step s (new_booking s gid rn ci co a c bd).1
  | check_in (s : State) (bid : Nat) : Step s (check_in s bid).1
  | check_out (s : State) (bid : Nat) (m : String) : Step s (check_out s bid m).1
  | cancel_booking (s : State) (bid : Nat) : Step s (cancel_booking s bid).1
  | process_payment (s : State) (bid : Nat) (m : String) :
      Step s (process_payment s bid m).1
  | room_maintenance (s : State) (rn : String) : Step s (room_maintenance s rn)
  | add_new_room (s : State) (rn ty : String) (pr : ℚ) (cap : Nat)
      (am : List String) : Step s (add_new_room s rn ty pr cap am)
  | register_guest (s : State) (n p e a ip inum : String) (rd : Int) :
      Step s (register_guest s n p e a ip inum rd)

/-- States reachable from the fresh-start seed state via core operations. -/
inductive Reachable : State → Prop
  | init : Reachable initialState
  | step {s s' : State} : Reachable s → Step s s' → Reachable s'

theorem sysInv_step {s s' : State} (h : SysInv s) (hs : Step s s') : SysInv s' := by
  cases hs with
  | new_booking gid rn ci co a c bd => exact sysInv_new_booking s gid rn ci co a c bd h
  | check_in bid => exact sysInv_check_in s bid h
  | check_out bid m => exact sysInv_check_out s bid m h
  | cancel_booking bid => exact sysInv_cancel_booking s bid h
  | process_payment bid m => exact sysInv_process_payment s bid m h
  | room_maintenance rn => exact sysInv_room_maintenance s rn h
  | add_new_room rn ty pr cap am => exact sysInv_add_new_room s rn ty pr cap am h
  | register_guest n p e a ip inum rd => exact sysInv_register_guest s n p e a ip inum rd h

theorem sysInv_reachable {s : State} (h : Reachable s) : SysInv s := by
  induction h with
  | init => exact sysInv_initialState
  | step _ hs ih => exact sysInv_step ih hs

/-- C1: Room/booking lockstep invariant.  In every state reachable from the
seed dataset via the core operations, for every room, the room's status is
BOOKED or OCCUPIED if and only if there exists exactly one booking
referencing that room number whose status is CONFIRMED (when the room is
BOOKED) or CHECKED_IN (when the room is OCCUPIED). -/
theorem C1_room_booking_lockstep {s : State} (hs : Reachable s) :
    ∀ r ∈ s.rooms,
      ((r.status = RoomStatus.BOOKED ∨ r.status = RoomStatus.OCCUPIED) ↔
        s.bookings.countP (fun b => decide (b.room_number = r.room_number ∧
          ((r.status = RoomStatus.BOOKED ∧ b.status = BookingStatus.CONFIRMED) ∨
           (r.status = RoomStatus.OCCUPIED ∧ b.status = BookingStatus.CHECKED_IN)))) = 1) := by
  intro r hr
  have hri := (sysInv_reachable hs).2.2 r hr
  obtain hstat | hstat | hstat | hstat :
      r.status = RoomStatus.BOOKED ∨ r.status = RoomStatus.OCCUPIED ∨
      r.status = RoomStatus.AVAILABLE ∨ r.status = RoomStatus.MAINTENANCE := by
    cases r.status <;> simp
  · have hcc : s.bookings.countP (fun b => decide (b.room_number = r.room_number ∧
        ((r.status = RoomStatus.BOOKED ∧ b.status = BookingStatus.CONFIRMED) ∨
         (r.status = RoomStatus.OCCUPIED ∧ b.status = BookingStatus.CHECKED_IN))))
        = confCount s.bookings r.room_number :=
      List.countP_congr (fun b _ => by simp [hstat])
    rw [hcc]
    have h1 := hri.1 hstat
    simp [hstat, h1.1]
  · have hcc : s.bookings.countP (fun b => decide (b.room_number = r.room_number ∧
        ((r.status = RoomStatus.BOOKED ∧ b.status = BookingStatus.CONFIRMED) ∨
         (r.status = RoomStatus.OCCUPIED ∧ b.status = BookingStatus.CHECKED_IN))))
        = ciCount s.bookings r.room_number :=
      List.countP_congr (fun b _ => by simp [hstat])
    rw [hcc]
    have h1 := hri.2.1 hstat
    simp [hstat, h1.1]
  · have hcc : s.bookings.countP (fun b => decide (b.room_number = r.room_number ∧
        ((r.status = RoomStatus.BOOKED ∧ b.status = BookingStatus.CONFIRMED) ∨
         (r.status = RoomStatus.OCCUPIED ∧ b.status = BookingStatus.CHECKED_IN))))
        = 0 := List.countP_eq_zero.2 (fun b _ => by simp [hstat])
    rw [hcc]
    simp [hstat]
  · have hcc : s.bookings.countP (fun b => decide (b.room_number = r.room_number ∧
        ((r.status = RoomStatus.BOOKED ∧ b.status = BookingStatus.CONFIRMED) ∨
         (r.status = RoomStatus.OCCUPIED ∧ b.status = BookingStatus.CHECKED_IN))))
        = 0 := List.countP_eq_zero.2 (fun b _ => by simp [hstat])
    rw [hcc]
    simp [hstat]

/-- Witness for C1 at the seed state and seed room 101. -/
theorem C1_room_booking_lockstep_witness :
    (((seedRoom "101" "Standard" 2500 2 ["TV", "AC", "WiFi", "Attached Bathroom"]).status
        = RoomStatus.BOOKED ∨
      (seedRoom "101" "Standard" 2500 2 ["TV", "AC", "WiFi", "Attached Bathroom"]).status
        = RoomStatus.OCCUPIED) ↔
      initialState.bookings.countP (fun b => decide (b.room_number =
          (seedRoom "101" "Standard" 2500 2 ["TV", "AC", "WiFi", "Attached Bathroom"]).room_number ∧
        (((seedRoom "101" "Standard" 2500 2 ["TV", "AC", "WiFi", "Attached Bathroom"]).status
            = RoomStatus.BOOKED ∧ b.status = BookingStatus.CONFIRMED) ∨
         ((seedRoom "101" "Standard" 2500 2 ["TV", "AC", "WiFi", "Attached Bathroom"]).status
            = RoomStatus.OCCUPIED ∧ b.status = BookingStatus.CHECKED_IN)))) = 1) :=
  C1_room_booking_lockstep Reachable.init
    (seedRoom "101" "Standard" 2500 2 ["TV", "AC", "WiFi", "Attached Bathroom"])
    (by decide)

/-- C2: No double-booking with atomic failure.  After a successful
`create_booking` on room number `rn`, a second call targeting `rn` (by a
guest that exists, with valid dates) fails with the `RoomUnavailable`
condition and applies no state mutation at all: the returned state is the
input state itself, so no booking is added, no room or guest field changes,
and no booking ID is consumed.  The hypothesis that room numbers are
pairwise distinct holds in every reachable state (`sysInv_reachable`). -/
theorem C2_no_double_booking (s : State) (gid1 : Nat) (rn : String)
    (ci1 co1 : Int) (a1 c1 : Nat) (bd1 : Int)
    (gid2 : Nat) (ci2 co2 : Int) (a2 c2 : Nat) (bd2 : Int)
    (hnodup : (s.rooms.map Room.room_number).Nodup)
    {s1 : State} {b1 : Booking}
    (h1 : new_booking s gid1 rn ci1 co1 a1 c1 bd1 = (s1, .booked b1))
    (hg2 : (s1.guests.find? (fun g => decide (g.guest_id = gid2))).isSome = true)
    (hdates : ci2 < co2) :
    new_booking s1 gid2 rn ci2 co2 a2 c2 bd2 = (s1, .roomUnavailable) := by
  unfold new_booking at h1
  split at h1
  · simp at h1
  · rename_i g1 hg1
    split at h1
    · simp at h1
    · split at h1
      · simp at h1
      · split at h1
        · simp at h1
        · rename_i sel hfind
          simp only [Prod.mk.injEq] at h1
          obtain ⟨hs1, -⟩ := h1
          obtain ⟨R1, R2, hrooms, hpsel, hR1⟩ := find?_decomp hfind
          rw [decide_eq_true_eq] at hpsel
          have hs1rooms : s1.rooms = R1 ++ (sel.book_room g1.name ci1 co1) :: R2 := by
            rw [← hs1]
            show updateFirst
              (fun r => decide (r.room_number = rn ∧ r.status = RoomStatus.AVAILABLE))
              (fun r => r.book_room g1.name ci1 co1) s.rooms = _
            rw [hrooms]
            exact updateFirst_append_cons _ R2 hR1 (by simp [hpsel.1, hpsel.2])
          have hfind2 : s1.rooms.find?
              (fun r => decide (r.room_number = rn ∧ r.status = RoomStatus.AVAILABLE))
              = none := by
            apply List.find?_eq_none.2
            intro r hrmem hp
            rw [decide_eq_true_eq] at hp
            rw [hs1rooms] at hrmem
            rcases List.mem_append.1 hrmem with h1m | h2m
            · have hfalse := hR1 r h1m
              simp only [decide_eq_true_eq] at hfalse
              simp at hfalse
              exact hfalse hp.1 hp.2
            · rcases List.mem_cons.1 h2m with rfl | h3m
              · have hbooked : (sel.book_room g1.name ci1 co1).status = RoomStatus.BOOKED := by
                  unfold Room.book_room
                  rw [if_pos hpsel.2]
                exact absurd (hbooked.symm.trans hp.2) (by decide)
              · have hnodup1 := hnodup
                rw [hrooms] at hnodup1
                exact absurd (hp.1.trans hpsel.1.symm)
                  (nodup_no_other hnodup1 r (Or.inr h3m))
          unfold new_booking
          split
          · rename_i hnone
            rw [hnone] at hg2
            simp at hg2
          · split
            · rfl
            · rw [if_neg (not_le.2 hdates)]
              simp only [hfind2]

/-- Test guest used to exercise the operations on concrete inputs. -/
def testGuestV : Guest :=
  { guest_id := 1001, name := "Asha Rao", phone := "9000000001",
    email := "asha@example.com", address := "Pune", id_proof := "Passport",
    id_number := "P12345", registration_date := 0, total_stays := 0,
    total_spent := 0, vip_status := true }

/-- Seed state with one registered (VIP) guest. -/
def testState : State := { initialState with guests := [testGuestV] }

/-- State after booking room 101 for the test guest (3 nights). -/
def c2state : State := (new_booking testState 1001 "101" 0 3 2 0 0).1

/-- The booking created by `new_booking testState 1001 "101" 0 3 2 0 0`:
3 nights at 2500 with the 10 percent VIP discount applied (6750).  The
amount is spelled as the arithmetic expression the operation builds, since
rational arithmetic is irreducible. -/
def c3booking : Booking :=
  { booking_id := 5001, guest_id := 1001, room_number := "101",
    check_in := 0, check_out := 3, adults := 2, children := 0,
    total_amount := 2500 * ((3 - 0 : Int) : ℚ) - 2500 * ((3 - 0 : Int) : ℚ) * (1/10),
    booking_date := 0, status := .CONFIRMED,
    payment_status := .PENDING, payment_method := none, special_requests := "" }

/-- Witness for C2: booking room 101 again after it was booked fails with
`RoomUnavailable` and returns the state unchanged. -/
theorem C2_no_double_booking_witness :
    new_booking c2state 1001 "101" 10 12 1 0 7 = (c2state, .roomUnavailable) :=
  C2_no_double_booking testState 1001 "101" 0 3 2 0 0 1001 10 12 1 0 7
    (by decide)
    (show new_booking testState 1001 "101" 0 3 2 0 0 = (c2state, .booked c3booking)
      from rfl)
    (by decide) (by decide)

/-- C3: VIP discount pricing.  Whenever `new_booking` succeeds, the created
booking's `total_amount` is `nightly_price × nights × 0.9` for a VIP guest
and exactly `nightly_price × nights` otherwise, where `nights` is the day
difference `check_out - check_in` and `nightly_price` the selected room's
price. -/
theorem C3_vip_discount (s : State) (gid : Nat) (rn : String) (ci co : Int)
    (a c : Nat) (bd : Int) {s' : State} {b : Booking} {g : Guest} {room : Room}
    (hg : s.guests.find? (fun x => decide (x.guest_id = gid)) = some g)
    (hr : s.rooms.find?
      (fun r => decide (r.room_number = rn ∧ r.status = RoomStatus.AVAILABLE)) = some room)
    (hb : new_booking s gid rn ci co a c bd = (s', .booked b)) :
    b.total_amount = if g.vip_status
      then room.price * ((co - ci : Int) : ℚ) * (9/10)
      else room.price * ((co - ci : Int) : ℚ) := by
  unfold new_booking at hb
  split at hb
  · rename_i hnone
    rw [hnone] at hg
    simp at hg
  · rename_i g1 hg1
    rw [hg1] at hg
    have hgg : g1 = g := by simpa using hg
    split at hb
    · simp at hb
    · split at hb
      · simp at hb
      · split at hb
        · rename_i hfnone
          rw [hfnone] at hr
          simp at hr
        · rename_i sel hfind
          rw [hfind] at hr
          have hrr : sel = room := by simpa using hr
          simp only [Prod.mk.injEq] at hb
          obtain ⟨-, hb2⟩ := hb
          rw [BookResult.booked.injEq] at hb2
          subst hb2
          subst hgg
          subst hrr
          by_cases hv : g1.vip_status
          · simp only [hv, if_true]
            show _ - _ * (1/10) = _
            ring
          · simp only [hv, if_false]
            rfl

/-- Witness for C3 at the concrete VIP run. -/
theorem C3_vip_discount_witness :
    c3booking.total_amount = (if testGuestV.vip_status
      then (seedRoom "101" "Standard" 2500 2
        ["TV", "AC", "WiFi", "Attached Bathroom"]).price * ((3 - 0 : Int) : ℚ) * (9/10)
      else (seedRoom "101" "Standard" 2500 2
        ["TV", "AC", "WiFi", "Attached Bathroom"]).price * ((3 - 0 : Int) : ℚ)) :=
  C3_vip_discount testState 1001 "101" 0 3 2 0 0 (by decide) (by decide)
    (show new_booking testState 1001 "101" 0 3 2 0 0
      = ((new_booking testState 1001 "101" 0 3 2 0 0).1, .booked c3booking)
      from rfl)

/-- C8: For every booking, `calculate_nights()` equals `check_out` minus
`check_in` in whole days, and every booking produced by a successful
`new_booking` (whose date guard only requires `check_out > check_in`) has
at least 1 night. -/
theorem C8_calculate_nights :
    (∀ b : Booking, b.calculate_nights = b.check_out - b.check_in) ∧
    (∀ (s : State) (gid : Nat) (rn : String) (ci co : Int) (a c : Nat) (bd : Int)
      (s' : State) (b : Booking),
      new_booking s gid rn ci co a c bd = (s', .booked b) →
      1 ≤ b.calculate_nights) := by
  constructor
  · intro b
    rfl
  · intro s gid rn ci co a c bd s' b hb
    unfold new_booking at hb
    split at hb
    · simp at hb
    · split at hb
      · simp at hb
      · split at hb
        · simp at hb
        · rename_i hdates
          split at hb
          · simp at hb
          · simp only [Prod.mk.injEq] at hb
            obtain ⟨-, hb2⟩ := hb
            rw [BookResult.booked.injEq] at hb2
            rw [← hb2]
            show 1 ≤ co - ci
            omega

/-- Witness for C8 at the concrete booking of the test run. -/
theorem C8_calculate_nights_witness :
    c3booking.calculate_nights = c3booking.check_out - c3booking.check_in ∧
    1 ≤ c3booking.calculate_nights :=
  ⟨C8_calculate_nights.1 c3booking,
   C8_calculate_nights.2 testState 1001 "101" 0 3 2 0 0
     (new_booking testState 1001 "101" 0 3 2 0 0).1 c3booking rfl⟩

theorem process_payment_guests (s : State) (bid : Nat) (m : String) :
    (process_payment s bid m).1.guests = s.guests := by
  unfold process_payment
  split
  · split <;> rfl
  · split <;> rfl

/-- C4: Check-out guest side effects and auto-VIP.  The guest mutation of a
successful check-out adds exactly one stay and the booking's `total_amount`
to the counters, and the resulting VIP flag is the old flag or-ed with the
strict comparison `total_spent + amount > 50000` (promotion only, never
cleared, and exactly 50000 does not promote); and every successful
`check_out` applies exactly this mutation to the first guest whose id is
the booking's guest id, leaving all other guests unchanged. -/
theorem C4_checkout_guest_update :
    (∀ (g : Guest) (amt : ℚ),
      (guest_checkout_update amt g).total_stays = g.total_stays + 1 ∧
      (guest_checkout_update amt g).total_spent = g.total_spent + amt ∧
      ((guest_checkout_update amt g).vip_status = true ↔
        (g.vip_status = true ∨ g.total_spent + amt > 50000))) ∧
    (∀ (s : State) (bid : Nat) (m : String) (rs : List Room) (gs : List Guest)
      (bs : List Booking) (b2 : Booking),
      check_out_go s.rooms s.guests bid s.bookings = some (rs, gs, bs, b2) →
      (check_out s bid m).1.guests =
        updateFirst (fun g => decide (g.guest_id = b2.guest_id))
          (guest_checkout_update b2.total_amount) s.guests) := by
  constructor
  · intro g amt
    simp only [guest_checkout_update]
    split
    · rename_i hcond
      refine ⟨rfl, rfl, ?_⟩
      exact iff_of_true rfl (Or.inr hcond.1)
    · rename_i hcond
      refine ⟨rfl, rfl, ?_⟩
      constructor
      · intro h
        exact Or.inl h
      · intro h
        rcases h with h | h
        · exact h
        · by_contra hv
          exact hcond ⟨h, hv⟩
  · intro s bid m rs gs bs b2 hgo
    obtain ⟨B1, b, B2, hbs, hb2, hbs', hid, hst, hfind, hupd, hgupd⟩ :=
      check_out_go_spec hgo
    unfold check_out
    simp only [hgo]
    subst hb2
    split
    · rw [process_payment_guests]
      exact hgupd
    · exact hgupd

theorem cancel_go_eq {rooms : List Room} {bid : Nat} {B1 B2 : List Booking}
    {b : Booking}
    (h1 : ∀ b' ∈ B1, ¬(b'.booking_id = bid ∧
      (b'.status = .CONFIRMED ∨ b'.status = .CHECKED_IN)))
    (hb : b.booking_id = bid ∧ (b.status = .CONFIRMED ∨ b.status = .CHECKED_IN)) :
    cancel_go rooms bid (B1 ++ b :: B2) = some
      (updateFirst (fun r => decide (r.room_number = b.room_number))
        Room.cancel_clear rooms,
       B1 ++ ({ b with status := .CANCELLED, payment_status := .REFUNDED }) :: B2) := by
  induction B1 with
  | nil =>
    rw [List.nil_append, cancel_go, if_pos hb, List.nil_append]
  | cons x xs ih =>
    rw [List.cons_append, cancel_go,
      if_neg (h1 x (List.mem_cons_self x xs)),
      ih (fun y hy => h1 y (List.mem_cons_of_mem x hy))]
    rfl

theorem cancel_go_none {rooms : List Room} {bid : Nat} {bs : List Booking}
    (h : ∀ b ∈ bs, ¬(b.booking_id = bid ∧
      (b.status = .CONFIRMED ∨ b.status = .CHECKED_IN))) :
    cancel_go rooms bid bs = none := by
  induction bs with
  | nil => rfl
  | cons x xs ih =>
    rw [cancel_go, if_neg (h x (List.mem_cons_self x xs)),
      ih (fun y hy => h y (List.mem_cons_of_mem x hy))]

/-- C5: Cancellation effect.  Cancelling the first booking with the given
id whose status is CONFIRMED or CHECKED_IN sets that booking to CANCELLED
with payment status REFUNDED regardless of the prior payment status, and
forces the first room carrying the booking's room number to AVAILABLE with
occupant name and dates cleared (`Room.cancel_clear`), irrespective of the
room's prior status; when every booking with that id is already terminal
(CHECKED_OUT or CANCELLED) the operation fails and changes nothing. -/
theorem C5_cancel_effects :
    (∀ (s : State) (bid : Nat) (B1 B2 : List Booking) (b : Booking),
      s.bookings = B1 ++ b :: B2 →
      (∀ b' ∈ B1, ¬(b'.booking_id = bid ∧
        (b'.status = .CONFIRMED ∨ b'.status = .CHECKED_IN))) →
      b.booking_id = bid →
      (b.status = .CONFIRMED ∨ b.status = .CHECKED_IN) →
      (cancel_booking s bid).1.bookings
          = B1 ++ ({ b with status := .CANCELLED, payment_status := .REFUNDED }) :: B2 ∧
      (cancel_booking s bid).1.rooms
          = updateFirst (fun r => decide (r.room_number = b.room_number))
              Room.cancel_clear s.rooms ∧
      (cancel_booking s bid).2 = true) ∧
    (∀ (s : State) (bid : Nat),
      (∀ b ∈ s.bookings, b.booking_id = bid →
        b.status = .CHECKED_OUT ∨ b.status = .CANCELLED) →
      cancel_booking s bid = (s, false)) := by
  constructor
  · intro s bid B1 B2 b hbs hfirst hid hstatus
    have hgo : cancel_go s.rooms bid s.bookings = some
        (updateFirst (fun r => decide (r.room_number = b.room_number))
          Room.cancel_clear s.rooms,
         B1 ++ ({ b with status := .CANCELLED, payment_status := .REFUNDED }) :: B2) := by
      rw [hbs]
      exact cancel_go_eq hfirst ⟨hid, hstatus⟩
    unfold cancel_booking
    rw [hgo]
    exact ⟨rfl, rfl, rfl⟩
  · intro s bid hterm
    have hgo : cancel_go s.rooms bid s.bookings = none := by
      apply cancel_go_none
      intro b hb hcontra
      rcases hterm b hb hcontra.1 with h | h <;>
        rcases hcontra.2 with h2 | h2 <;>
          exact absurd (h.symm.trans h2) (by decide)
    unfold cancel_booking
    rw [hgo]

/-- C9: Service charge routing.  When the guest and the service exist,
`restaurant_services` adds the service price to the `total_amount` of the
first booking of that guest whose status is CHECKED_IN or CONFIRMED,
leaving every other booking unchanged, and reports a successful order; when
the guest has no such active booking the charge is silently dropped: the
state is returned unchanged and no error is raised (the result is still
`ordered`). -/
theorem C9_service_charge :
    (∀ (s : State) (gid sid : Nat) (g : Guest) (sv : Service),
      s.guests.find? (fun x => decide (x.guest_id = gid)) = some g →
      s.services.find? (fun x => decide (x.service_id = sid)) = some sv →
      (restaurant_services s gid sid).1.bookings
          = updateFirst (fun b => decide (b.guest_id = gid ∧
              (b.status = .CHECKED_IN ∨ b.status = .CONFIRMED)))
              (fun b => { b with total_amount := b.total_amount + sv.price })
              s.bookings ∧
      (restaurant_services s gid sid).2 = .ordered) ∧
    (∀ (s : State) (gid sid : Nat) (g : Guest) (sv : Service),
      s.guests.find? (fun x => decide (x.guest_id = gid)) = some g →
      s.services.find? (fun x => decide (x.service_id = sid)) = some sv →
      (∀ b ∈ s.bookings, ¬(b.guest_id = gid ∧
        (b.status = .CHECKED_IN ∨ b.status = .CONFIRMED))) →
      restaurant_services s gid sid = (s, .ordered)) := by
  constructor
  · intro s gid sid g sv hg hsv
    unfold restaurant_services
    simp only [hg, hsv]
    exact ⟨trivial, trivial⟩
  · intro s gid sid g sv hg hsv hnone
    unfold restaurant_services
    simp only [hg, hsv]
    rw [updateFirst_of_forall_not (fun b hb => decide_eq_false (hnone b hb))]

/-- C10: A `process_payment` call whose non-zero booking id matches no
booking leaves the whole repository state unchanged and reports no failure:
the `"Booking not found!"` message is only emitted for a falsy (zero) id. -/
theorem C10_payment_silent_miss (s : State) (bid : Nat) (m : String)
    (hbid : bid ≠ 0)
    (hmiss : ∀ b ∈ s.bookings, b.booking_id ≠ bid) :
    process_payment s bid m = (s, .silentMiss) := by
  have hfind : s.bookings.find? (fun b => decide (b.booking_id = bid)) = none :=
    List.find?_eq_none.2 (fun b hb => by simp [hmiss b hb])
  unfold process_payment
  rw [hfind]
  simp only [if_neg hbid]

/-- Witness for C10: settling an unknown non-zero booking id on the seed
state is a silent no-op. -/
theorem C10_payment_silent_miss_witness :
    process_payment testState 9999 "Cash" = (testState, .silentMiss) :=
  C10_payment_silent_miss testState 9999 "Cash" (by decide) (by decide)

/-- State after checking in booking 5001 (room 101 OCCUPIED). -/
def w2 : State := (check_in c2state 5001).1

/-- The checked-in form of the test booking. -/
def wb : Booking := { c3booking with status := .CHECKED_IN }

/-- Witness for C4: concrete checked-out stay of the test guest. -/
theorem C4_checkout_guest_update_witness :
    ((guest_checkout_update 100 testGuestV).total_stays = testGuestV.total_stays + 1 ∧
     (guest_checkout_update 100 testGuestV).total_spent = testGuestV.total_spent + 100 ∧
     ((guest_checkout_update 100 testGuestV).vip_status = true ↔
       (testGuestV.vip_status = true ∨ testGuestV.total_spent + 100 > 50000))) ∧
    (check_out w2 5001 "Cash").1.guests =
      updateFirst (fun g => decide (g.guest_id =
          ({ wb with status := BookingStatus.CHECKED_OUT } : Booking).guest_id))
        (guest_checkout_update
          ({ wb with status := BookingStatus.CHECKED_OUT } : Booking).total_amount)
        w2.guests :=
  ⟨C4_checkout_guest_update.1 testGuestV 100,
   C4_checkout_guest_update.2 w2 5001 "Cash"
     (updateFirst (fun r => decide (r.room_number = wb.room_number))
       Room.check_out w2.rooms)
     (updateFirst (fun g => decide (g.guest_id = wb.guest_id))
       (guest_checkout_update wb.total_amount) w2.guests)
     [{ wb with status := .CHECKED_OUT }]
     ({ wb with status := .CHECKED_OUT })
     rfl⟩

/-- The cancelled form of the test booking. -/
def c3cancelled : Booking :=
  { c3booking with status := .CANCELLED, payment_status := .REFUNDED }

/-- Witness for C5: cancelling the confirmed test booking, then observing
that a second cancellation of the now-terminal booking changes nothing. -/
theorem C5_cancel_effects_witness :
    ((cancel_booking c2state 5001).1.bookings = [] ++ c3cancelled :: [] ∧
     (cancel_booking c2state 5001).1.rooms
        = updateFirst (fun r => decide (r.room_number = c3booking.room_number))
            Room.cancel_clear c2state.rooms ∧
     (cancel_booking c2state 5001).2 = true) ∧
    cancel_booking (cancel_booking c2state 5001).1 5001
      = ((cancel_booking c2state 5001).1, false) :=
  ⟨C5_cancel_effects.1 c2state 5001 [] [] c3booking rfl (by simp) rfl (Or.inl rfl),
   C5_cancel_effects.2 (cancel_booking c2state 5001).1 5001 (by decide)⟩

/-- Witness for C9: a restaurant order routed to the confirmed test
booking, and a silently dropped order for a guest with no active booking. -/
theorem C9_service_charge_witness :
    ((restaurant_services c2state 1001 3001).1.bookings
        = updateFirst (fun b => decide (b.guest_id = 1001 ∧
            (b.status = BookingStatus.CHECKED_IN ∨ b.status = BookingStatus.CONFIRMED)))
            (fun b => { b with total_amount := b.total_amount +
              (seedService 3001 "Breakfast Buffet" "Restaurant" 500
                "Complimentary breakfast buffet").price })
            c2state.bookings ∧
     (restaurant_services c2state 1001 3001).2 = .ordered) ∧
    restaurant_services testState 1001 3001 = (testState, .ordered) :=
  ⟨C9_service_charge.1 c2state 1001 3001 testGuestV
      (seedService 3001 "Breakfast Buffet" "Restaurant" 500
        "Complimentary breakfast buffet")
      (by decide) (by decide),
   C9_service_charge.2 testState 1001 3001 testGuestV
      (seedService 3001 "Breakfast Buffet" "Restaurant" 500
        "Complimentary breakfast buffet")
      (by decide) (by decide) (by decide)⟩

theorem decodeRoom_to_dict (r : Room) : decodeRoom r.to_dict = some r := by
  obtain ⟨n, t, p, c, a, st, g, ci, co⟩ := r
  cases ci <;> cases co <;> rfl

theorem decodeGuest_to_dict (g : Guest) : decodeGuest g.to_dict = some g := by
  obtain ⟨i, n, p, e, a, ip, inum, rd, ts, sp, v⟩ := g
  rfl

theorem decodeBooking_to_dict (b : Booking) : decodeBooking b.to_dict = some b := by
  obtain ⟨i, g, rn, ci, co, a, c, t, bd, st, ps, pm, sr⟩ := b
  rfl

theorem decodeStaff_to_dict (st : Staff) :
    decodeStaff st.to_dict = some { st with attendance := [] } := by
  obtain ⟨i, n, p, d, ph, e, sal, jd, s, att⟩ := st
  rfl

theorem decodeService_to_dict (sv : Service) : decodeService sv.to_dict = some sv := by
  obtain ⟨i, n, c, p, d, a⟩ := sv
  rfl

theorem decodeList_map (dec : α → Option β) (f : γ → α) (k : γ → β)
    (h : ∀ x, dec (f x) = some (k x)) (l : List γ) :
    decodeList dec (l.map f) = (l.map k, false) := by
  induction l with
  | nil => rfl
  | cons x xs ih =>
    simp only [List.map_cons, decodeList, h x, ih]

/-- C6 (amended): Snapshot round-trip.  Loading the document produced by
`save_data` restores every entity of every collection with every attribute
equal to the original — statuses, payment fields, denormalized room
occupant fields, all date fields and all four ID counters — with the single
exception of `Staff.attendance`, which `Staff.to_dict` does not serialize
and `load_data` resets to empty.  The round-trip is therefore exact
whenever every staff member's attendance is empty (true of every state this
program ever constructs, since no operation writes `attendance`). -/
theorem C6_round_trip (s0 s : State) :
    load_data s0 (LoadInput.parsed (save_data s))
      = ({ s with staff := s.staff.map (fun st => { st with attendance := [] }) },
         false) := by
  have hr := decodeList_map decodeRoom Room.to_dict id
    (fun r => decodeRoom_to_dict r) s.rooms
  have hg := decodeList_map decodeGuest Guest.to_dict id
    (fun g => decodeGuest_to_dict g) s.guests
  have hb := decodeList_map decodeBooking Booking.to_dict id
    (fun b => decodeBooking_to_dict b) s.bookings
  have ht := decodeList_map decodeStaff Staff.to_dict
    (fun st => { st with attendance := [] })
    (fun st => decodeStaff_to_dict st) s.staff
  have hv := decodeList_map decodeService Service.to_dict id
    (fun sv => decodeService_to_dict sv) s.services
  simp only [load_data, save_data, hr, hg, hb, ht, hv, List.map_id,
    Bool.false_eq_true, if_false]

/-- A room present only in a snapshot, not in the seed inventory. -/
def snapRoom : Room :=
  { room_number := "901", room_type := "Suite", price := 8000, capacity := 2,
    amenities := ["TV"], status := .OCCUPIED, current_guest := some "Asha Rao",
    check_in_date := some 1, check_out_date := some 2 }

/-- A guest dict whose registration date string does not parse, making
`datetime.fromisoformat` raise during reconstruction. -/
def badGuestDoc : GuestDoc :=
  { guest_id := 1001, name := "Asha Rao", phone := "9000000001",
    email := "asha@example.com", address := "Pune", id_proof := "Passport",
    id_number := "P12345", registration_date := .invalid, total_stays := 0,
    total_spent := 0, vip_status := false }

/-- A parseable snapshot document whose guests cannot be reconstructed. -/
def badDoc : RawDoc :=
  { rooms := [snapRoom.to_dict], guests := [badGuestDoc], bookings := [],
    staff := [], services := [], next_guest_id := 1002,
    next_booking_id := 5001, next_staff_id := 2001, next_service_id := 3001 }

/-- Counterexample for C6: a non-empty repository state in which one staff
member has a non-empty `attendance` record does not survive the save/load
round-trip — the reloaded state differs from the original. -/
def staffA : Staff :=
  { staff_id := 2001, name := "Rajesh Kumar", position := "Manager",
    department := "Administration", phone := "9876543210",
    email := "rajesh@hotel.com", salary := 60000, join_date := 0,
    status := "ACTIVE", attendance := [("Mon", "Present")] }

/-- State whose staff roster carries an attendance entry. -/
def c6state : State := { initialState with staff := [staffA] }

theorem C6_round_trip_counterexample :
    (load_data initialState (LoadInput.parsed (save_data c6state))).1 ≠ c6state := by
  decide

/-- C7 (amended): Fail-soft load.  A missing snapshot is silently ignored
and the repository keeps its seed contents; a present but JSON-unparseable
snapshot reports an error and also leaves the repository exactly as it was
(the seed state at startup) — in both cases `load_data` returns normally,
so startup is not aborted.  However, when the document parses and entity
reconstruction fails partway, the collections already rebuilt retain
snapshot data rather than falling back to the seed: if the rooms decode and
the guests fail, the result keeps the snapshot rooms together with the
partially decoded guest prefix. -/
theorem C7_fail_soft_load :
    (∀ s : State, load_data s LoadInput.unparseable = (s, true)) ∧
    (∀ s : State, load_data s LoadInput.missing = (s, false)) ∧
    (∀ (s : State) (d : RawDoc),
      (decodeList decodeRoom d.rooms).2 = false →
      (decodeList decodeGuest d.guests).2 = true →
      load_data s (LoadInput.parsed d)
        = ({ s with rooms := (decodeList decodeRoom d.rooms).1,
                    guests := (decodeList decodeGuest d.guests).1 }, true)) := by
  refine ⟨fun s => rfl, fun s => rfl, ?_⟩
  intro s d h1 h2
  simp only [load_data, h1, h2, Bool.false_eq_true, if_false, if_true]

/-- Witness for C7 at the concrete failing document. -/
theorem C7_fail_soft_load_witness :
    load_data initialState (LoadInput.parsed badDoc)
      = ({ initialState with
            rooms := (decodeList decodeRoom badDoc.rooms).1,
            guests := (decodeList decodeGuest badDoc.guests).1 }, true) :=
  C7_fail_soft_load.2.2 initialState badDoc (by decide) (by decide)

/-- Counterexample for C7: the failing document above is reported as an
error, yet the repository is not left in the seed state — the rooms
collection now holds the snapshot room, a mixture of snapshot and seed
data. -/
theorem C7_fail_soft_load_counterexample :
    (load_data initialState (LoadInput.parsed badDoc)).2 = true ∧
    (load_data initialState (LoadInput.parsed badDoc)).1.rooms = [snapRoom] ∧
    initialState.rooms ≠ [snapRoom] := by
  decide
